import Mathlib

/-!
Verification of the aggregation / report-composition engine of the
copilot-metrics-agent repository against its specification.

The dashboard server (src/unnamed/part_001) and the MCP server
(src/mcp/index.js) are shallowly embedded below.  JavaScript numbers are
modelled as exact integers (`ℤ`) where the source only ever holds integral
metric counts, and as exact rationals (`ℚ`) where the source divides;
missing numeric fields and `x || 0` defaulting are modelled by letting the
record fields default to `0`, which is observationally equivalent because
every read site in the source guards with `|| 0` (or `|| 1`, modelled by
`jsOr1`).  JavaScript objects used as string-keyed maps are modelled as
association lists in insertion order, which is the enumeration order of
`Object.entries` for non-numeric string keys.  Fallible evaluation
(property access on `undefined`, `reduce` of an empty array) is modelled
with `Except String`.
-/

namespace CM

/-- Insertion of thousands separators, lowest three digits first; helper for
`fmt` (the embedding of `Number.prototype.toLocaleString('en-US')` on
integers). -/
def commaRev : List Char → List Char
  | a :: b :: c :: d :: rest => a :: b :: c :: ',' :: commaRev (d :: rest)
  | l => l

/-- Embedding of `fmt(n) = n.toLocaleString('en-US')` (part_001 line 245) on a
natural number. -/
def fmtNat (n : ℕ) : String :=
  String.mk (commaRev (Nat.repr n).data.reverse).reverse

/-- Embedding of `fmt` on an integer. -/
def fmt (n : ℤ) : String :=
  if n < 0 then "-" ++ fmtNat n.natAbs else fmtNat n.natAbs

/-- Embedding of `Math.round` on an exact rational: round to nearest, ties
toward positive infinity, exactly ECMA-262 `Math.round`. -/
def jsRound (q : ℚ) : ℤ := ⌊q + 1 / 2⌋

/-- Embedding of `Number.prototype.toFixed(1)`: nearest multiple of 1/10,
ties toward the larger value, rendered with one decimal digit.  (The
negative-zero rendering of JavaScript, e.g. `(-0.04).toFixed(1) = "-0.0"`,
is not reproduced; no value interpolated by the source at a claim-relevant
input is negative.) -/
def toFixed1 (q : ℚ) : String :=
  let n : ℤ := ⌊q * 10 + 1 / 2⌋
  let render : ℕ → String := fun m => Nat.repr (m / 10) ++ "." ++ Nat.repr (m % 10)
  if n < 0 then "-" ++ render n.natAbs else render n.natAbs

/-- Embedding of `Array.prototype.join('\n')`. -/
def joinNL (lines : List String) : String := String.intercalate "\n" lines

/-- Embedding of `x || 1` applied to a numeric field (both `0` and a missing
field become `1`). -/
def jsOr1 (n : ℤ) : ℤ := if n = 0 then 1 else n

/-- ASCII lower-casing of one character, the fragment of
`String.prototype.toLowerCase` exercised by the dispatcher's keyword tests. -/
def lowerChar (c : Char) : Char :=
  if 'A' ≤ c ∧ c ≤ 'Z' then Char.ofNat (c.toNat + 32) else c

/-- Embedding of `prompt.toLowerCase()` as a character list. -/
def lowerStr (s : String) : List Char := s.data.map lowerChar

/-- Embedding of `String.prototype.includes`: the argument occurs as a
contiguous substring. -/
def includes (s : List Char) (sub : String) : Bool :=
  (List.range (s.length + 1)).any fun i => (s.drop i).take sub.data.length == sub.data

/-- Regular-expression word character, `\w = [A-Za-z0-9_]`. -/
def wordChar (c : Char) : Bool :=
  (('a' ≤ c && c ≤ 'z') || ('A' ≤ c && c ≤ 'Z') || ('0' ≤ c && c ≤ '9') || c == '_')

/-- The word `w` occurs in `s` at index `i` with `\b` word boundaries on both
sides. -/
def occursWordAt (s w : List Char) (i : ℕ) : Bool :=
  ((s.drop i).take w.length == w) &&
  (i == 0 || !wordChar (s.getD (i - 1) ' ')) &&
  (i + w.length == s.length || !wordChar (s.getD (i + w.length) ' '))

/-- First alternation group of the report-detection regex (part_001 line
1081). -/
def reportVerbs : List String := ["generate", "create", "build", "make", "produce", "give me"]

/-- Second alternation group of the report-detection regex. -/
def reportTopics : List String := ["report", "dashboard", "breakdown", "analysis", "overview"]

/-- Embedding of the test
`/\b(generate|create|build|make|produce|give me)\b.*\b(report|dashboard|breakdown|analysis|overview)\b/i.test(prompt)`:
a case-insensitive match exists iff some verb occurs with word boundaries,
some topic occurs with word boundaries at or after the verb's end, and the
gap between them contains no newline (`.` does not match `\n`). -/
def matchesReportPattern (prompt : String) : Bool :=
  let s := lowerStr prompt
  let n := s.length
  reportVerbs.any fun v =>
    (List.range (n + 1)).any fun i =>
      occursWordAt s v.data i &&
      reportTopics.any fun t =>
        (List.range (n + 1)).any fun j =>
          decide (i + v.data.length ≤ j) && occursWordAt s t.data j &&
          ((s.drop (i + v.data.length)).take (j - (i + v.data.length))).all
            (fun c => c != '\n')

/-- Embedding of `prompt.match(/@(\w[\w-]*)/)`: scan left to right for an
`'@'` followed by a word character, capture the maximal run of word
characters and dashes. -/
def findMention : List Char → Option String
  | [] => none
  | '@' :: rest =>
      match rest with
      | [] => none
      | c :: cs =>
          if wordChar c then
            some (String.mk (c :: cs.takeWhile (fun d => wordChar d || d == '-')))
          else findMention rest
  | _ :: rest => findMention rest

/-- Decimal digit-list to number, the semantics of `parseInt(digits, 10)` on a
nonempty digit string. -/
def digitsToNat (ds : List Char) : ℕ := ds.foldl (fun n c => n * 10 + (c.toNat - 48)) 0

/-- Attempt to match `/top\s+(\d+)/` anchored at the head of `s`. -/
def matchTopAt (s : List Char) : Option ℕ :=
  if s.take 3 == "top".data then
    let after := s.drop 3
    let sp := after.takeWhile Char.isWhitespace
    if sp.isEmpty then none
    else
      let ds := (after.drop sp.length).takeWhile Char.isDigit
      if ds.isEmpty then none else some (digitsToNat ds)
  else none

/-- Embedding of `lower.match(/top\s+(\d+)/)` with the captured number parsed:
try the pattern at each position from the left. -/
def findTopNum : List Char → Option ℕ
  | [] => none
  | c :: rest =>
      match matchTopAt (c :: rest) with
      | some n => some n
      | none => findTopNum rest

/-- Assignment `obj[k] = v` on an object modelled as an insertion-ordered
association list: replace in place, or append a new key. -/
def jsSet (l : List (String × β)) (k : String) (v : β) : List (String × β) :=
  match l with
  | [] => [(k, v)]
  | (k1, w) :: rest => if k1 = k then (k1, v) :: rest else (k1, w) :: jsSet rest k v

/-- The accumulation pattern `if (!obj[k]) obj[k] = init; obj[k] = f(obj[k])`
(equivalently `obj[k] = f(obj[k] || init)` for the numeric variants). -/
def jsUpdate (l : List (String × β)) (k : String) (f : β → β) (init : β) :
    List (String × β) :=
  match l with
  | [] => [(k, f init)]
  | (k1, w) :: rest => if k1 = k then (k1, f w) :: rest else (k1, w) :: jsUpdate rest k f init

/-- Property read `obj[k]` with a default for the absent case. -/
def lookupD (l : List (String × β)) (k : String) (d : β) : β :=
  match l with
  | [] => d
  | (k1, w) :: rest => if k1 = k then w else lookupD rest k d

/-- Embedding of `Array.prototype.slice(a, b)` for `a ≤ b`. -/
def jsSlice (l : List α) (a b : ℕ) : List α := (l.drop a).take (b - a)

/-- Embedding of `Array.prototype.reduce(f)` with no initial value: throws a
`TypeError` on an empty array, otherwise folds from the second element. -/
def jsReduce1 (f : α → α → α) : List α → Except String α
  | [] => .error "TypeError: Reduce of empty array with no initial value"
  | x :: xs => .ok (xs.foldl f x)

/-- Embedding of `Math.max(...l)` over a spread of integers; `none` stands for
the `-Infinity` returned on an empty spread. -/
def mathMaxSpread (l : List ℤ) : Option ℤ :=
  l.foldl (fun acc x => match acc with | none => some x | some m => some (max m x)) none

/-- Rendering of a `Math.max(...)` result by `fmt`;
`(-Infinity).toLocaleString('en-US')` is the string `"-∞"`. -/
def fmtMax (o : Option ℤ) : String :=
  match o with
  | none => "-∞"
  | some n => fmt n

/-- Embedding of `list.includes(x)` where `x` may be `undefined` (an absent
`feature` field): `undefined` is never an element. -/
def optMem (o : Option String) (l : List String) : Bool :=
  match o with
  | some s => l.contains s
  | none => false

/-- Embedding of `fmt(x)` where `x` may be `undefined`: calling
`toLocaleString` on `undefined` throws a `TypeError`. -/
def fmtE (o : Option ℤ) : Except String String :=
  match o with
  | none => .error "TypeError: Cannot read properties of undefined (reading \x27toLocaleString\x27)"
  | some n => .ok (fmt n)

/-! ### Data model (section 3 of the spec; record shape read by both servers) -/

/-- Entry of `totals_by_feature`. -/
structure FeatureEntry where
  feature : String
  user_initiated_interaction_count : ℤ := 0
  code_generation_activity_count : ℤ := 0
  code_acceptance_activity_count : ℤ := 0
  loc_added_sum : ℤ := 0
  loc_deleted_sum : ℤ := 0
  loc_suggested_to_add_sum : ℤ := 0
  deriving DecidableEq

/-- Entry of `totals_by_language_feature`; the `feature` field may be absent
(`undefined`), which the source observes through `includes` membership
tests. -/
structure LangEntry where
  language : String
  feature : Option String := none
  code_generation_activity_count : ℤ := 0
  code_acceptance_activity_count : ℤ := 0
  loc_added_sum : ℤ := 0
  loc_deleted_sum : ℤ := 0
  loc_suggested_to_add_sum : ℤ := 0
  deriving DecidableEq

/-- Entry of `totals_by_model_feature`. -/
structure ModelEntry where
  model : String
  feature : Option String := none
  user_initiated_interaction_count : ℤ := 0
  code_generation_activity_count : ℤ := 0
  loc_added_sum : ℤ := 0
  loc_deleted_sum : ℤ := 0
  loc_suggested_to_add_sum : ℤ := 0
  deriving DecidableEq

/-- Entry of `totals_by_ide`. -/
structure IDEEntry where
  ide : String
  user_initiated_interaction_count : ℤ := 0
  code_generation_activity_count : ℤ := 0
  loc_added_sum : ℤ := 0
  deriving DecidableEq

/-- Entry of `totals_by_language_model`. -/
structure LangModelEntry where
  language : String
  model : String
  code_generation_activity_count : ℤ := 0
  deriving DecidableEq

/-- One daily record of the store.  Numeric fields default to `0`: every read
site in the source guards with `|| 0` or `|| 1`, so a missing field and an
explicit `0` are observationally identical. -/
structure Record where
  day : String
  daily_active_users : ℤ := 0
  user_initiated_interaction_count : ℤ := 0
  code_generation_activity_count : ℤ := 0
  code_acceptance_activity_count : ℤ := 0
  loc_added_sum : ℤ := 0
  loc_deleted_sum : ℤ := 0
  totals_by_feature : List FeatureEntry := []
  totals_by_language_feature : List LangEntry := []
  totals_by_model_feature : List ModelEntry := []
  totals_by_ide : List IDEEntry := []
  totals_by_language_model : List LangModelEntry := []
  deriving DecidableEq

/-- Dynamic read `r[field] || 0` used by `sumField`; an unknown field name is
`undefined`, hence `0`. -/
def Record.getNum (r : Record) : String → ℤ := fun field =>
  if field = "daily_active_users" then r.daily_active_users
  else if field = "user_initiated_interaction_count" then r.user_initiated_interaction_count
  else if field = "code_generation_activity_count" then r.code_generation_activity_count
  else if field = "code_acceptance_activity_count" then r.code_acceptance_activity_count
  else if field = "loc_added_sum" then r.loc_added_sum
  else if field = "loc_deleted_sum" then r.loc_deleted_sum
  else 0

/-! ### Aggregation helpers of the dashboard server (part_001 lines 112-291) -/

/-- Stable descending sort by an integer key, the behaviour of
`arr.sort((a, b) => b[key] - a[key])`: `Array.prototype.sort` is stable, and
a stable sort for a total preorder has a unique result, which insertion sort
with this relation produces. -/
def sortByDesc (key : α → ℤ) (l : List α) : List α :=
  List.insertionSort (fun a b => key b ≤ key a) l

/-- Ascending lexicographic sort of strings, the behaviour of `.sort()` on an
array of (ASCII) day strings, and of `.sort((a, b) => a.localeCompare(b))`
under the `en` collation restricted to the ASCII day keys the store uses. -/
def sortStrings (l : List String) : List String :=
  List.insertionSort (fun a b => a ≤ b) l

/-- Embedding of `getDateRange` (line 114): smallest and largest `day` key,
`none` when the store is empty (`null` in the source).  (A record with the
empty string as its `day` would be falsy and re-assigned in JavaScript; day
keys are nonempty date strings.) -/
structure DateRange where
  startDay : Option String
  endDay : Option String
  deriving DecidableEq

def getDateRange (records : List Record) : DateRange :=
  records.foldl
    (fun acc r =>
      { startDay := match acc.startDay with
          | none => some r.day
          | some s => if r.day < s then some r.day else some s,
        endDay := match acc.endDay with
          | none => some r.day
          | some e => if e < r.day then some r.day else some e })
    { startDay := none, endDay := none }

/-- Rendering of a possibly-`null` day in a template literal. -/
def showDay (o : Option String) : String := o.getD "null"

/-- Embedding of `getUniqueUsers().size` (line 123): the maximum
`daily_active_users` across all records, starting from `0`. -/
def getUniqueUsersSize (records : List Record) : ℤ :=
  records.foldl (fun m r => max m r.daily_active_users) 0

/-- Embedding of `sumField` (line 130). -/
def sumField (records : List Record) (field : String) : ℤ :=
  records.foldl (fun s r => s + r.getNum field) 0

/-- Embedding of `countUsersWhere` (line 134): the number of records
satisfying the predicate. -/
def countUsersWhere (records : List Record) (p : Record → Bool) : ℤ :=
  records.foldl (fun c r => if p r then c + 1 else c) 0

/-- First-occurrence deduplication, the iteration order of
`new Set(array)`. -/
def firstDedup : List String → List String
  | [] => []
  | x :: xs => x :: (firstDedup xs).filter (fun y => y ≠ x)

/-- Embedding of `getSortedDays` (line 271). -/
def getSortedDays (records : List Record) : List String :=
  sortStrings (firstDedup (records.map (fun r => r.day)))

/-- Embedding of `getRecordsByDay` (line 276): the records grouped by day,
keys in first-appearance order, each group in record order. -/
def getRecordsByDay (records : List Record) : List (String × List Record) :=
  records.foldl (fun acc r => jsUpdate acc r.day (fun l => l ++ [r]) []) []

/-- The `dauByDay` map built inside `aggregateWeeklyActiveUsers` (line 302):
later records for the same day overwrite earlier ones. -/
def dauByDay (records : List Record) : List (String × ℤ) :=
  records.foldl (fun acc r => jsSet acc r.day r.daily_active_users) []

/-- The `FEATURE_DISPLAY` table (line 256). -/
def FEATURE_DISPLAY : List (String × String) :=
  [("chat_panel_agent_mode", "Agent Mode"),
   ("chat_panel_ask_mode", "Ask Mode"),
   ("chat_panel_edit_mode", "Edit Mode"),
   ("chat_panel_custom_mode", "Custom Mode"),
   ("chat_inline", "Inline Chat"),
   ("code_completion", "Code Completion"),
   ("agent_edit", "Agent Edit"),
   ("chat_panel_unknown_mode", "Unknown Mode")]

/-- Lookup in `FEATURE_DISPLAY`; an absent key yields `undefined`, which this
rendering only reaches on feature names outside the fixed tables, never for
the `CHAT_MODES` keys it is applied to below. -/
def featureDisplayOf (s : String) : String := lookupD FEATURE_DISPLAY s "undefined"

/-- Lookup `FEATURE_DISPLAY[f.feature] || f.feature` (used by the report
branches). -/
def featureDisplayOr (s : String) : String := lookupD FEATURE_DISPLAY s s

def AGENT_FEATURES : List String :=
  ["agent_edit", "chat_panel_agent_mode", "chat_panel_custom_mode", "chat_panel_edit_mode"]

def USER_INITIATED_FEATURES : List String :=
  ["code_completion", "chat_panel_ask_mode", "chat_inline"]

def CHAT_MODES : List String :=
  ["chat_panel_agent_mode", "chat_panel_ask_mode", "chat_panel_edit_mode",
   "chat_panel_custom_mode", "chat_inline"]

/-- Per-day accumulator of `aggregateByDay`. -/
structure DayMetrics where
  interactions : ℤ := 0
  codeGenerated : ℤ := 0
  locAdded : ℤ := 0
  activeUsers : ℤ := 0
  deriving DecidableEq

/-- Output row of `aggregateByDay`. -/
structure DayAgg where
  day : String
  interactions : ℤ
  codeGenerated : ℤ
  locAdded : ℤ
  activeUsers : ℤ
  deriving DecidableEq

/-- Embedding of `aggregateByDay` (line 143): note `activeUsers` is assigned,
not accumulated, so the last record of a day wins. -/
def aggregateByDay (records : List Record) : List DayAgg :=
  let days := records.foldl
    (fun acc r =>
      jsUpdate acc r.day
        (fun d =>
          { interactions := d.interactions + r.user_initiated_interaction_count,
            codeGenerated := d.codeGenerated + r.code_generation_activity_count,
            locAdded := d.locAdded + r.loc_added_sum,
            activeUsers := r.daily_active_users })
        ({} : DayMetrics))
    []
  List.insertionSort (fun a b => a.day ≤ b.day)
    (days.map (fun p =>
      { day := p.1, interactions := p.2.interactions, codeGenerated := p.2.codeGenerated,
        locAdded := p.2.locAdded, activeUsers := p.2.activeUsers }))

/-- Accumulator of `aggregateByFeature`. -/
structure FeatMetrics where
  interactions : ℤ := 0
  codeGenerated : ℤ := 0
  locAdded : ℤ := 0
  deriving DecidableEq

/-- Output row of `aggregateByFeature`. -/
structure FeatureAgg where
  feature : String
  interactions : ℤ
  codeGenerated : ℤ
  locAdded : ℤ
  deriving DecidableEq

/-- Embedding of `aggregateByFeature` (line 166). -/
def aggregateByFeature (records : List Record) : List FeatureAgg :=
  let features := records.foldl
    (fun acc r =>
      r.totals_by_feature.foldl
        (fun acc f =>
          jsUpdate acc f.feature
            (fun d =>
              { interactions := d.interactions + f.user_initiated_interaction_count,
                codeGenerated := d.codeGenerated + f.code_generation_activity_count,
                locAdded := d.locAdded + f.loc_added_sum })
            ({} : FeatMetrics))
        acc)
    []
  sortByDesc (fun a => a.interactions)
    (features.map (fun p =>
      { feature := p.1, interactions := p.2.interactions,
        codeGenerated := p.2.codeGenerated, locAdded := p.2.locAdded }))

/-- Accumulator of the dashboard `aggregateByLanguage`. -/
structure LangMetricsD where
  codeGenerated : ℤ := 0
  locAdded : ℤ := 0
  deriving DecidableEq

/-- Output row of the dashboard `aggregateByLanguage`. -/
structure LangAggD where
  language : String
  codeGenerated : ℤ
  locAdded : ℤ
  deriving DecidableEq

/-- The grouping pass of the dashboard server's `aggregateByLanguage`
(part_001 lines 184-193). -/
def langGraphD (records : List Record) : List (String × LangMetricsD) :=
  records.foldl
    (fun acc r =>
      r.totals_by_language_feature.foldl
        (fun acc l =>
          jsUpdate acc l.language
            (fun d =>
              { codeGenerated := d.codeGenerated + l.code_generation_activity_count,
                locAdded := d.locAdded + l.loc_added_sum })
            ({} : LangMetricsD))
        acc)
    []

/-- Embedding of the dashboard server's `aggregateByLanguage` (part_001 line
183): two metric fields, sorted descending by `codeGenerated`, truncated to
15 entries. -/
def aggregateByLanguage (records : List Record) : List LangAggD :=
  (sortByDesc (fun a => a.codeGenerated)
    ((langGraphD records).map (fun p =>
      { language := p.1, codeGenerated := p.2.codeGenerated,
        locAdded := p.2.locAdded }))).take 15

/-- Accumulator of the MCP `getLanguageUsage`. -/
structure LangMetricsM where
  codeGenerated : ℤ := 0
  codeAccepted : ℤ := 0
  locAdded : ℤ := 0
  deriving DecidableEq

/-- Output row of the MCP `getLanguageUsage`. -/
structure LangAggM where
  language : String
  codeGenerated : ℤ
  codeAccepted : ℤ
  locAdded : ℤ
  deriving DecidableEq

/-- The grouping pass of the MCP server's `getLanguageUsage`
(src/mcp/index.js lines 181-189). -/
def langGraphM (records : List Record) : List (String × LangMetricsM) :=
  records.foldl
    (fun acc r =>
      r.totals_by_language_feature.foldl
        (fun acc l =>
          jsUpdate acc l.language
            (fun d =>
              { codeGenerated := d.codeGenerated + l.code_generation_activity_count,
                codeAccepted := d.codeAccepted + l.code_acceptance_activity_count,
                locAdded := d.locAdded + l.loc_added_sum })
            ({} : LangMetricsM))
        acc)
    []

/-- Embedding of the MCP server's `getLanguageUsage` (src/mcp/index.js line
180): three metric fields, sorted descending by `codeGenerated`, truncated
to 20 entries. -/
def getLanguageUsage (records : List Record) : List LangAggM :=
  (sortByDesc (fun a => a.codeGenerated)
    ((langGraphM records).map (fun p =>
      { language := p.1, codeGenerated := p.2.codeGenerated,
        codeAccepted := p.2.codeAccepted, locAdded := p.2.locAdded }))).take 20

/-- Projection of an MCP language row onto the dashboard's two metric
fields. -/
def LangAggM.toD (e : LangAggM) : LangAggD :=
  { language := e.language, codeGenerated := e.codeGenerated, locAdded := e.locAdded }

/-- Projection of the MCP metric accumulator onto the dashboard's two
fields. -/
def projMetD (m : LangMetricsM) : LangMetricsD :=
  { codeGenerated := m.codeGenerated, locAdded := m.locAdded }

/-- Accumulator of `aggregateByModel`. -/
structure ModelMetrics where
  interactions : ℤ := 0
  codeGenerated : ℤ := 0
  deriving DecidableEq

/-- Output row of `aggregateByModel`. -/
structure ModelAgg where
  model : String
  interactions : ℤ
  codeGenerated : ℤ
  deriving DecidableEq

/-- Embedding of `aggregateByModel` (line 200). -/
def aggregateByModel (records : List Record) : List ModelAgg :=
  let models := records.foldl
    (fun acc r =>
      r.totals_by_model_feature.foldl
        (fun acc m =>
          jsUpdate acc m.model
            (fun d =>
              { interactions := d.interactions + m.user_initiated_interaction_count,
                codeGenerated := d.codeGenerated + m.code_generation_activity_count })
            ({} : ModelMetrics))
        acc)
    []
  (sortByDesc (fun a => a.interactions)
    (models.map (fun p =>
      { model := p.1, interactions := p.2.interactions,
        codeGenerated := p.2.codeGenerated }))).take 15

/-- Output row of `aggregateByIDE`: the aggregator sets exactly the fields
`ide`, `interactions` and `codeGenerated`; in particular there is no `users`
field on these objects. -/
structure IDEAgg where
  ide : String
  interactions : ℤ
  codeGenerated : ℤ
  deriving DecidableEq

/-- The JavaScript property read `i.users` on an `aggregateByIDE` row: the
object has no such field, so the read evaluates to `undefined`. -/
def IDEAgg.usersField (_ : IDEAgg) : Option ℤ := none

/-- Embedding of `aggregateByIDE` (line 217). -/
def aggregateByIDE (records : List Record) : List IDEAgg :=
  let ides := records.foldl
    (fun acc r =>
      r.totals_by_ide.foldl
        (fun acc i =>
          jsUpdate acc i.ide
            (fun d =>
              { interactions := d.interactions + i.user_initiated_interaction_count,
                codeGenerated := d.codeGenerated + i.code_generation_activity_count })
            ({} : ModelMetrics))
        acc)
    []
  sortByDesc (fun a => a.interactions)
    (ides.map (fun p =>
      { ide := p.1, interactions := p.2.interactions, codeGenerated := p.2.codeGenerated }))

/-- Shape of a per-user row; per-user data never exists in enterprise-level
records, so no value of this type is ever produced. -/
structure TopUser where
  login : String
  interactions : ℤ
  codeGenerated : ℤ
  locAdded : ℤ
  daysActive : ℤ
  deriving DecidableEq

/-- Embedding of `aggregateTopUsers` (line 233): enterprise-level data has no
per-user breakdown, the function ignores the store and returns `[]`. -/
def aggregateTopUsers (_limit : ℕ) : List TopUser := []

/-- Daily trend row inside a (never-produced) per-user report. -/
structure UserDayTrend where
  day : String
  interactions : ℤ
  codeGenerated : ℤ
  deriving DecidableEq

/-- Shape of the per-user detail object; never produced. -/
structure UserData where
  login : String
  interactions : ℤ
  codeGenerated : ℤ
  locAdded : ℤ
  locDeleted : ℤ
  daysActive : ℤ
  usedAgent : Bool
  usedChat : Bool
  dailyTrends : List UserDayTrend
  deriving DecidableEq

/-- Embedding of `getUserData` (line 238): always `null`. -/
def getUserData (_username : String) : Option UserData := none

/-- Result of `topN` (line 285). -/
structure TopNResult (α : Type) where
  top : List α
  otherVal : ℤ
  deriving DecidableEq

/-- Embedding of `topN` (line 285): stable descending sort by the key, the
first `n` buckets, and the key-sum of the remainder. -/
def topN (arr : List α) (key : α → ℤ) (n : ℕ) : TopNResult α :=
  let sorted := sortByDesc key arr
  { top := sorted.take n, otherVal := ((sorted.drop n).map key).sum }

/-! ### Time-series composers (part_001 lines 293-674) -/

/-- Row of the daily / weekly active-user series. -/
structure DayUsers where
  day : String
  users : ℤ
  deriving DecidableEq

/-- Embedding of `aggregateDailyActiveUsers` (line 293): the first record of
each sorted day. -/
def aggregateDailyActiveUsers (records : List Record) : List DayUsers :=
  (getSortedDays records).map fun day =>
    match records.find? (fun r => r.day = day) with
    | some rec => { day := day, users := rec.daily_active_users }
    | none => { day := day, users := 0 }

/-- Embedding of `aggregateWeeklyActiveUsers` (line 300): 7-day rolling
average of daily active users, rounded with `Math.round`; the window is
`days.slice(max(0, idx - 6), idx + 1)` and so shrinks at the start. -/
def aggregateWeeklyActiveUsers (records : List Record) : List DayUsers :=
  let days := getSortedDays records
  let dau := dauByDay records
  days.mapIdx fun idx day =>
    let windowDays := jsSlice days (idx - 6) (idx + 1)
    let sum : ℤ := (windowDays.map (fun d => lookupD dau d 0)).sum
    { day := day, users := jsRound ((sum : ℚ) / (windowDays.length : ℚ)) }

/-- Row of the average-chat-requests series. -/
structure DayAvg where
  day : String
  avg : ℚ
  deriving DecidableEq

/-- Embedding of `aggregateAvgChatRequestsPerActiveUser` (line 314). -/
def aggregateAvgChatRequestsPerActiveUser (records : List Record) : List DayAvg :=
  (getSortedDays records).map fun day =>
    match records.find? (fun r => r.day = day) with
    | none => { day := day, avg := 0 }
    | some rec =>
        let totalChat : ℤ := rec.totals_by_feature.foldl
          (fun s f =>
            if f.feature ≠ "code_completion" then s + f.user_initiated_interaction_count else s)
          0
        let dau := jsOr1 rec.daily_active_users
        { day := day, avg := (jsRound ((totalChat : ℚ) / (dau : ℚ) * 100) : ℚ) / 100 }

/-- Result shape `{ days, series }` of the per-day stacked series builders;
`series` is the JavaScript object keyed by category (insertion order), one
pushed value per day. -/
structure DaySeries where
  days : List String
  series : List (String × List ℚ)
  deriving DecidableEq

/-- Embedding of `aggregateRequestsPerChatMode` (line 329). -/
def aggregateRequestsPerChatMode (records : List Record) : DaySeries :=
  let byDay := getRecordsByDay records
  let days := getSortedDays records
  let series0 : List (String × List ℚ) :=
    CHAT_MODES.foldl (fun acc feat => jsSet acc (featureDisplayOf feat) []) []
  let series := days.foldl
    (fun series day =>
      let counts0 : List (String × ℤ) :=
        CHAT_MODES.foldl (fun acc feat => jsSet acc (featureDisplayOf feat) 0) []
      let counts := (lookupD byDay day []).foldl
        (fun counts r =>
          r.totals_by_feature.foldl
            (fun counts f =>
              if CHAT_MODES.contains f.feature then
                jsUpdate counts (featureDisplayOf f.feature)
                  (fun c => c + f.user_initiated_interaction_count) 0
              else counts)
            counts)
        counts0
      (series.map Prod.fst).foldl
        (fun s name => jsUpdate s name (fun l => l ++ [((lookupD counts name 0 : ℤ) : ℚ)]) [])
        series)
    series0
  { days := days, series := series }

/-- Row of the code-completions series. -/
structure DayCompletions where
  day : String
  shown : ℤ
  accepted : ℤ
  deriving DecidableEq

/-- Embedding of `aggregateCodeCompletions` (line 353). -/
def aggregateCodeCompletions (records : List Record) : List DayCompletions :=
  let byDay := getRecordsByDay records
  (getSortedDays records).map fun day =>
    let acc := (lookupD byDay day []).foldl
      (fun acc r =>
        r.totals_by_feature.foldl
          (fun acc f =>
            if f.feature = "code_completion" then
              (acc.1 + f.code_generation_activity_count,
               acc.2 + f.code_acceptance_activity_count)
            else acc)
          acc)
      ((0 : ℤ), (0 : ℤ))
    { day := day, shown := acc.1, accepted := acc.2 }

/-- Row of the acceptance-rate series. -/
structure DayRate where
  day : String
  rate : ℚ
  deriving DecidableEq

/-- Embedding of `aggregateCodeCompletionAcceptanceRate` (line 369). -/
def aggregateCodeCompletionAcceptanceRate (records : List Record) : List DayRate :=
  (aggregateCodeCompletions records).map fun d =>
    { day := d.day,
      rate := if (0 : ℤ) < d.shown then (jsRound ((d.accepted : ℚ) * 10000 / (d.shown : ℚ)) : ℚ) / 100 else 0 }

/-- Window totals per model, `(user_initiated + code_generation)` counts
(part_001 lines 379-385). -/
def modelWindowTotals (records : List Record) : List (String × ℤ) :=
  records.foldl
    (fun acc r =>
      r.totals_by_model_feature.foldl
        (fun acc m =>
          jsUpdate acc m.model
            (fun c => c + (m.user_initiated_interaction_count + m.code_generation_activity_count))
            0)
        acc)
    []

/-- The top five keys of a totals map after the stable descending sort
`Object.entries(totals).sort((a, b) => b[1] - a[1]).slice(0, 5)`. -/
def topFiveKeys (totals : List (String × ℤ)) : List String :=
  ((sortByDesc (fun p => p.2) totals).take 5).map Prod.fst

/-- The per-day count object of the two normalized per-day series builders:
start every top key and `"Other"` at `0`, then route each `(key, count)`
entry of the day's records to its own bucket or to `"Other"` (part_001
lines 394-406 and 491-502, which differ only in the entry extraction). -/
def stackedDayCounts (topKeys : List String) (extract : Record → List (String × ℤ))
    (dayRecs : List Record) : List (String × ℤ) :=
  let counts0 := jsSet (topKeys.foldl (fun acc k => jsSet acc k 0) []) "Other" 0
  dayRecs.foldl
    (fun counts r =>
      (extract r).foldl
        (fun counts kc =>
          if topKeys.contains kc.1 then jsUpdate counts kc.1 (fun c => c + kc.2) 0
          else jsUpdate counts "Other" (fun c => c + kc.2) 0)
        counts)
    counts0

/-- The `total` of one day of the normalized series builders:
`Object.values(dayCounts).reduce((s, v) => s + v, 0)` (part_001 lines 407
and 503). -/
def stackedDayTotal (topKeys : List String) (extract : Record → List (String × ℤ))
    (dayRecs : List Record) : ℤ :=
  ((stackedDayCounts topKeys extract dayRecs).map Prod.snd).sum

/-- The values pushed for one day by the normalized series builders:
`total > 0 ? Math.round((dayCounts[key] / total) * 10000) / 100 : 0` for each
key of `[...topKeys, 'Other']` in order (part_001 lines 407-410 and
503-506). -/
def stackedDayPercents (topKeys : List String) (extract : Record → List (String × ℤ))
    (dayRecs : List Record) : List ℚ :=
  let counts := stackedDayCounts topKeys extract dayRecs
  let total : ℤ := stackedDayTotal topKeys extract dayRecs
  (topKeys ++ ["Other"]).map fun k =>
    if 0 < total then (jsRound (((lookupD counts k 0 : ℤ) : ℚ) * 10000 / (total : ℚ)) : ℚ) / 100 else 0

/-- Push one day's values onto the series object, one per key in order. -/
def pushRow (series : List (String × List ℚ)) (keys : List String) (vals : List ℚ) :
    List (String × List ℚ) :=
  (keys.zip vals).foldl (fun s kv => jsUpdate s kv.1 (fun l => l ++ [kv.2]) []) series

/-- Entry extraction of `aggregateModelUsagePerDay`: model key with
interactions plus code generations. -/
def extractModelCount (r : Record) : List (String × ℤ) :=
  r.totals_by_model_feature.map fun m =>
    (m.model, m.user_initiated_interaction_count + m.code_generation_activity_count)

/-- Embedding of `aggregateModelUsagePerDay` (line 376): fixed top-5 models by
window totals, every other model folded into `"Other"`, percentages per day. -/
def aggregateModelUsagePerDay (records : List Record) : DaySeries :=
  let byDay := getRecordsByDay records
  let days := getSortedDays records
  let topModels := topFiveKeys (modelWindowTotals records)
  let series0 := jsSet (topModels.foldl (fun acc m => jsSet acc m []) []) "Other" []
  let series := days.foldl
    (fun series day =>
      pushRow series (topModels ++ ["Other"])
        (stackedDayPercents topModels extractModelCount (lookupD byDay day [])))
    series0
  { days := days, series := series }

/-- Row of the chat-model distribution. -/
structure ModelCount where
  model : String
  count : ℤ
  deriving DecidableEq

/-- Embedding of `aggregateChatModelDistribution` (line 415): interactions of
model-feature entries whose `feature` is not `code_completion` (an absent
`feature` passes the `!==` test). -/
def aggregateChatModelDistribution (records : List Record) : List ModelCount :=
  let modelCounts := records.foldl
    (fun acc r =>
      r.totals_by_model_feature.foldl
        (fun acc m =>
          if m.feature ≠ some "code_completion" then
            jsUpdate acc m.model (fun c => c + m.user_initiated_interaction_count) 0
          else acc)
        acc)
    []
  sortByDesc (fun a => a.count)
    (modelCounts.map (fun p => { model := p.1, count := p.2 }))

/-- One chart dataset `{ label, data }`. -/
structure Dataset where
  label : String
  data : List ℚ
  deriving DecidableEq

/-- Result shape `{ labels, datasets }`. -/
structure LabeledCharts where
  labels : List String
  datasets : List Dataset
  deriving DecidableEq

/-- Embedding of `aggregateModelUsagePerChatMode` (line 430). -/
def aggregateModelUsagePerChatMode (records : List Record) : LabeledCharts :=
  let modelTotals := records.foldl
    (fun acc r =>
      r.totals_by_model_feature.foldl
        (fun acc m =>
          if optMem m.feature CHAT_MODES then
            jsUpdate acc m.model (fun c => c + m.user_initiated_interaction_count) 0
          else acc)
        acc)
    []
  let topModels := topFiveKeys modelTotals
  let data0 : List (String × List (String × ℤ)) :=
    CHAT_MODES.foldl
      (fun acc feat =>
        jsSet acc (featureDisplayOf feat)
          (jsSet (topModels.foldl (fun a m => jsSet a m 0) []) "Other" 0))
      []
  let data := records.foldl
    (fun data r =>
      r.totals_by_model_feature.foldl
        (fun data m =>
          match m.feature with
          | some feat =>
              if CHAT_MODES.contains feat then
                let displayFeat := featureDisplayOf feat
                let cnt := m.user_initiated_interaction_count
                if topModels.contains m.model then
                  jsUpdate data displayFeat (fun inner => jsUpdate inner m.model (fun c => c + cnt) 0) []
                else
                  jsUpdate data displayFeat (fun inner => jsUpdate inner "Other" (fun c => c + cnt) 0) []
              else data
          | none => data)
        data)
    data0
  let labels := CHAT_MODES.map featureDisplayOf
  let seriesKeys := topModels ++ ["Other"]
  { labels := labels,
    datasets := seriesKeys.map fun model =>
      { label := model,
        data := labels.map fun feat =>
          let inner := lookupD data feat []
          let total : ℤ := (inner.map Prod.snd).sum
          if 0 < total then (jsRound (((lookupD inner model 0 : ℤ) : ℚ) * 10000 / (total : ℚ)) : ℚ) / 100
          else 0 } }

/-- Window totals per language by code generations (part_001 lines 477-482). -/
def langWindowTotals (records : List Record) : List (String × ℤ) :=
  records.foldl
    (fun acc r =>
      r.totals_by_language_feature.foldl
        (fun acc l => jsUpdate acc l.language (fun c => c + l.code_generation_activity_count) 0)
        acc)
    []

/-- Entry extraction of `aggregateLanguageUsagePerDay`: language key with code
generations. -/
def extractLangCount (r : Record) : List (String × ℤ) :=
  r.totals_by_language_feature.map fun l => (l.language, l.code_generation_activity_count)

/-- Embedding of `aggregateLanguageUsagePerDay` (line 474): fixed top-5
languages by window totals, remainder in `"Other"`, percentages per day. -/
def aggregateLanguageUsagePerDay (records : List Record) : DaySeries :=
  let byDay := getRecordsByDay records
  let days := getSortedDays records
  let topLangs := topFiveKeys (langWindowTotals records)
  let series0 := jsSet (topLangs.foldl (fun acc l => jsSet acc l []) []) "Other" []
  let series := days.foldl
    (fun series day =>
      pushRow series (topLangs ++ ["Other"])
        (stackedDayPercents topLangs extractLangCount (lookupD byDay day [])))
    series0
  { days := days, series := series }

/-- Row of the language distribution. -/
structure LangCount where
  language : String
  count : ℤ
  deriving DecidableEq

/-- Embedding of `aggregateLanguageDistribution` (line 511). -/
def aggregateLanguageDistribution (records : List Record) : List LangCount :=
  let langCounts := records.foldl
    (fun acc r =>
      r.totals_by_language_feature.foldl
        (fun acc l => jsUpdate acc l.language (fun c => c + l.code_generation_activity_count) 0)
        acc)
    []
  sortByDesc (fun a => a.count)
    (langCounts.map (fun p => { language := p.1, count := p.2 }))

/-- Embedding of `aggregateModelUsagePerLanguage` (line 523). -/
def aggregateModelUsagePerLanguage (records : List Record) : LabeledCharts :=
  let langTotals := records.foldl
    (fun acc r =>
      r.totals_by_language_model.foldl
        (fun acc l => jsUpdate acc l.language (fun c => c + l.code_generation_activity_count) 0)
        acc)
    []
  let topLangs := topFiveKeys langTotals
  let modelTotals := records.foldl
    (fun acc r =>
      r.totals_by_language_model.foldl
        (fun acc l =>
          if topLangs.contains l.language then
            jsUpdate acc l.model (fun c => c + l.code_generation_activity_count) 0
          else acc)
        acc)
    []
  let topModels := topFiveKeys modelTotals
  let data0 : List (String × List (String × ℤ)) :=
    topLangs.foldl
      (fun acc lang =>
        jsSet acc lang (jsSet (topModels.foldl (fun a m => jsSet a m 0) []) "Other" 0))
      []
  let data := records.foldl
    (fun data r =>
      r.totals_by_language_model.foldl
        (fun data l =>
          if topLangs.contains l.language then
            let cnt := l.code_generation_activity_count
            if topModels.contains l.model then
              jsUpdate data l.language (fun inner => jsUpdate inner l.model (fun c => c + cnt) 0) []
            else
              jsUpdate data l.language (fun inner => jsUpdate inner "Other" (fun c => c + cnt) 0) []
          else data)
        data)
    data0
  let labels := topLangs
  let seriesKeys := topModels ++ ["Other"]
  { labels := labels,
    datasets := seriesKeys.map fun model =>
      { label := model,
        data := labels.map fun lang =>
          let inner := lookupD data lang []
          let total : ℤ := (inner.map Prod.snd).sum
          if 0 < total then (jsRound (((lookupD inner model 0 : ℤ) : ℚ) * 10000 / (total : ℚ)) : ℚ) / 100
          else 0 } }

/-- Row of the daily LOC series. -/
structure DayLoc where
  day : String
  added : ℤ
  deleted : ℤ
  deriving DecidableEq

/-- Embedding of `aggregateDailyLocAddedDeleted` (line 574). -/
def aggregateDailyLocAddedDeleted (records : List Record) : List DayLoc :=
  let byDay := getRecordsByDay records
  (getSortedDays records).map fun day =>
    let acc := (lookupD byDay day []).foldl
      (fun acc r => (acc.1 + r.loc_added_sum, acc.2 + r.loc_deleted_sum))
      ((0 : ℤ), (0 : ℤ))
    { day := day, added := acc.1, deleted := acc.2 }

/-- Result of `aggregateUserInitiatedCodeChanges`. -/
structure SugAdd where
  suggested : ℤ
  added : ℤ
  deriving DecidableEq

/-- Embedding of `aggregateUserInitiatedCodeChanges` (line 586). -/
def aggregateUserInitiatedCodeChanges (records : List Record) : SugAdd :=
  records.foldl
    (fun acc r =>
      r.totals_by_feature.foldl
        (fun acc f =>
          if USER_INITIATED_FEATURES.contains f.feature then
            { suggested := acc.suggested + f.loc_suggested_to_add_sum,
              added := acc.added + f.loc_added_sum }
          else acc)
        acc)
    { suggested := 0, added := 0 }

/-- Result of `aggregateAgentInitiatedCodeChanges`. -/
structure AddDel where
  added : ℤ
  deleted : ℤ
  deriving DecidableEq

/-- Embedding of `aggregateAgentInitiatedCodeChanges` (line 599). -/
def aggregateAgentInitiatedCodeChanges (records : List Record) : AddDel :=
  records.foldl
    (fun acc r =>
      r.totals_by_feature.foldl
        (fun acc f =>
          if AGENT_FEATURES.contains f.feature then
            { added := acc.added + f.loc_added_sum,
              deleted := acc.deleted + f.loc_deleted_sum }
          else acc)
        acc)
    { added := 0, deleted := 0 }

/-- Row of `aggregateUserCodeChangesByModel`. -/
structure ModelSugAdd where
  model : String
  suggested : ℤ
  added : ℤ
  deriving DecidableEq

/-- Embedding of `aggregateUserCodeChangesByModel` (line 612): model-feature
entries whose `feature` is not an agent feature (an absent `feature`
passes). -/
def aggregateUserCodeChangesByModel (records : List Record) : List ModelSugAdd :=
  let models := records.foldl
    (fun acc r =>
      r.totals_by_model_feature.foldl
        (fun acc m =>
          if !(optMem m.feature AGENT_FEATURES) then
            jsUpdate acc m.model
              (fun d => (d.1 + m.loc_suggested_to_add_sum, d.2 + m.loc_added_sum))
              ((0 : ℤ), (0 : ℤ))
          else acc)
        acc)
    []
  sortByDesc (fun a => a.suggested + a.added)
    (models.map (fun p => { model := p.1, suggested := p.2.1, added := p.2.2 }))

/-- Row of `aggregateAgentCodeChangesByModel`. -/
structure ModelAddDel where
  model : String
  added : ℤ
  deleted : ℤ
  deriving DecidableEq

/-- Embedding of `aggregateAgentCodeChangesByModel` (line 628). -/
def aggregateAgentCodeChangesByModel (records : List Record) : List ModelAddDel :=
  let models := records.foldl
    (fun acc r =>
      r.totals_by_model_feature.foldl
        (fun acc m =>
          if optMem m.feature AGENT_FEATURES then
            jsUpdate acc m.model
              (fun d => (d.1 + m.loc_added_sum, d.2 + m.loc_deleted_sum))
              ((0 : ℤ), (0 : ℤ))
          else acc)
        acc)
    []
  sortByDesc (fun a => a.added + a.deleted)
    (models.map (fun p => { model := p.1, added := p.2.1, deleted := p.2.2 }))

/-- Row of `aggregateUserCodeChangesByLanguage`. -/
structure LangSugAdd where
  language : String
  suggested : ℤ
  added : ℤ
  deriving DecidableEq

/-- Embedding of `aggregateUserCodeChangesByLanguage` (line 644). -/
def aggregateUserCodeChangesByLanguage (records : List Record) : List LangSugAdd :=
  let langs := records.foldl
    (fun acc r =>
      r.totals_by_language_feature.foldl
        (fun acc l =>
          if !(optMem l.feature AGENT_FEATURES) then
            jsUpdate acc l.language
              (fun d => (d.1 + l.loc_suggested_to_add_sum, d.2 + l.loc_added_sum))
              ((0 : ℤ), (0 : ℤ))
          else acc)
        acc)
    []
  sortByDesc (fun a => a.suggested + a.added)
    (langs.map (fun p => { language := p.1, suggested := p.2.1, added := p.2.2 }))

/-- Row of `aggregateAgentCodeChangesByLanguage`. -/
structure LangAddDel where
  language : String
  added : ℤ
  deleted : ℤ
  deriving DecidableEq

/-- Embedding of `aggregateAgentCodeChangesByLanguage` (line 660). -/
def aggregateAgentCodeChangesByLanguage (records : List Record) : List LangAddDel :=
  let langs := records.foldl
    (fun acc r =>
      r.totals_by_language_feature.foldl
        (fun acc l =>
          if optMem l.feature AGENT_FEATURES then
            jsUpdate acc l.language
              (fun d => (d.1 + l.loc_added_sum, d.2 + l.loc_deleted_sum))
              ((0 : ℤ), (0 : ℤ))
          else acc)
        acc)
    []
  sortByDesc (fun a => a.added + a.deleted)
    (langs.map (fun p => { language := p.1, added := p.2.1, deleted := p.2.2 }))

/-! ### Query handler (part_001 lines 1077-1442) -/

/-- One chart specification; `title` and `stacked` are present only on the
multi-chart report responses. -/
structure Chart where
  title : Option String := none
  type : String
  stacked : Option Bool := none
  labels : List String
  datasets : List Dataset
  deriving DecidableEq

/-- A dispatcher response `{ markdown, chartData, chartsData }`; an object
built without a `chartsData` property is modelled with `none`, matching the
`report.chartsData || null` marshalling of the endpoints. -/
structure QueryResponse where
  markdown : String
  chartData : Option Chart := none
  chartsData : Option (List Chart) := none
  deriving DecidableEq

/-- Rendering of an integer in a template literal without locale grouping. -/
def intRepr (n : ℤ) : String :=
  if n < 0 then "-" ++ Nat.repr n.natAbs else Nat.repr n.natAbs

/-- The language-topic composite response (part_001 lines 1085-1108). -/
def langReportResponse (records : List Record) : QueryResponse :=
  let langDist := aggregateLanguageDistribution records
  let langPerDay := aggregateLanguageUsagePerDay records
  let userByLang := (aggregateUserCodeChangesByLanguage records).take 10
  let agentByLang := (aggregateAgentCodeChangesByLanguage records).take 10
  let top := langDist.take 10
  { markdown := joinNL
      (["# Language Adoption Report",
        "\n| Language | Code Generations | % of Total |",
        "|----------|-----------------|------------|"]
       ++ top.map (fun l =>
         let total : ℤ := langDist.foldl (fun s x => s + x.count) 0
         "| " ++ l.language ++ " | " ++ fmt l.count ++ " | " ++
           toFixed1 ((l.count : ℚ) / (total : ℚ) * 100) ++ "% |")),
    chartData := none,
    chartsData := some
      [{ title := some "Language Distribution", type := "pie",
         labels := top.map (fun l => l.language),
         datasets := [{ label := "Code Generations", data := top.map (fun l => (l.count : ℚ)) }] },
       { title := some "Language Usage Trend (%)", type := "bar", stacked := some true,
         labels := langPerDay.days,
         datasets := langPerDay.series.map (fun p => { label := p.1, data := p.2 }) },
       { title := some "User-Initiated LOC by Language", type := "bar",
         labels := userByLang.map (fun l => l.language),
         datasets := [{ label := "Suggested", data := userByLang.map (fun l => (l.suggested : ℚ)) },
                      { label := "Added", data := userByLang.map (fun l => (l.added : ℚ)) }] },
       { title := some "Agent-Initiated LOC by Language", type := "bar",
         labels := agentByLang.map (fun l => l.language),
         datasets := [{ label := "Added", data := agentByLang.map (fun l => (l.added : ℚ)) },
                      { label := "Deleted", data := agentByLang.map (fun l => (l.deleted : ℚ)) }] }] }

/-- The model-topic composite response (part_001 lines 1110-1133). -/
def modelReportResponse (records : List Record) : QueryResponse :=
  let modelDist := aggregateChatModelDistribution records
  let modelPerDay := aggregateModelUsagePerDay records
  let modelPerChat := aggregateModelUsagePerChatMode records
  let agentByModel := (aggregateAgentCodeChangesByModel records).take 10
  let top := modelDist.take 10
  { markdown := joinNL
      (["# Model Usage Report",
        "\n| Model | Interactions | % of Total |",
        "|-------|-------------|------------|"]
       ++ top.map (fun m =>
         let total : ℤ := modelDist.foldl (fun s x => s + x.count) 0
         "| " ++ m.model ++ " | " ++ fmt m.count ++ " | " ++
           toFixed1 ((m.count : ℚ) / (total : ℚ) * 100) ++ "% |")),
    chartData := none,
    chartsData := some
      [{ title := some "Chat Model Distribution", type := "pie",
         labels := top.map (fun m => m.model),
         datasets := [{ label := "Interactions", data := top.map (fun m => (m.count : ℚ)) }] },
       { title := some "Model Usage Trend (%)", type := "bar", stacked := some true,
         labels := modelPerDay.days,
         datasets := modelPerDay.series.map (fun p => { label := p.1, data := p.2 }) },
       { title := some "Model Usage per Chat Mode (%)", type := "bar",
         labels := modelPerChat.labels, datasets := modelPerChat.datasets },
       { title := some "Agent LOC by Model", type := "bar",
         labels := agentByModel.map (fun m => m.model),
         datasets := [{ label := "Added", data := agentByModel.map (fun m => (m.added : ℚ)) },
                      { label := "Deleted", data := agentByModel.map (fun m => (m.deleted : ℚ)) }] }] }

/-- The feature/agent-topic composite response (part_001 lines 1135-1157). -/
def featureReportResponse (records : List Record) : QueryResponse :=
  let features := aggregateByFeature records
  let chatMode := aggregateRequestsPerChatMode records
  let agentChanges := aggregateAgentInitiatedCodeChanges records
  let userChanges := aggregateUserInitiatedCodeChanges records
  let totalLoc := sumField records "loc_added_sum" + sumField records "loc_deleted_sum"
  let agentPct :=
    if 0 < totalLoc then
      toFixed1 (((agentChanges.added + agentChanges.deleted : ℤ) : ℚ) / (totalLoc : ℚ) * 100)
    else "0"
  { markdown := joinNL
      (["# Feature & Agent Adoption Report",
        "\n| Feature | Interactions | Code Generated | LOC Added |",
        "|---------|-------------|----------------|-----------|"]
       ++ features.map (fun f =>
         "| " ++ featureDisplayOr f.feature ++ " | " ++ fmt f.interactions ++ " | " ++
           fmt f.codeGenerated ++ " | " ++ fmt f.locAdded ++ " |")
       ++ ["\n> **Agent Contribution:** " ++ agentPct ++ "% of all lines changed"]),
    chartData := none,
    chartsData := some
      [{ title := some "Interactions by Feature", type := "bar",
         labels := features.map (fun f => featureDisplayOr f.feature),
         datasets := [{ label := "Interactions", data := features.map (fun f => (f.interactions : ℚ)) }] },
       { title := some "Requests per Chat Mode (Daily)", type := "bar", stacked := some true,
         labels := chatMode.days,
         datasets := chatMode.series.map (fun p => { label := p.1, data := p.2 }) },
       { title := some "User vs Agent Code Changes", type := "bar",
         labels := ["User Suggested", "User Added", "Agent Added", "Agent Deleted"],
         datasets := [{ label := "Lines of Code",
                        data := [(userChanges.suggested : ℚ), (userChanges.added : ℚ),
                                 (agentChanges.added : ℚ), (agentChanges.deleted : ℚ)] }] },
       { title := some "Feature LOC Contribution", type := "pie",
         labels := features.map (fun f => featureDisplayOr f.feature),
         datasets := [{ label := "LOC Added", data := features.map (fun f => (f.locAdded : ℚ)) }] }] }

/-- The trend-topic composite response (part_001 lines 1159-1179).  On an
empty store the source's `avgChat.reduce(..., 0) / avgChat.length` is `NaN`
and renders as `"NaN"`; the exact-rational model renders `0 / 0 = 0` as
`"0.0"`.  No claim evaluates this branch on an empty store. -/
def trendsReportResponse (records : List Record) : QueryResponse :=
  let dailyActive := aggregateDailyActiveUsers records
  let weeklyActive := aggregateWeeklyActiveUsers records
  let avgChat := aggregateAvgChatRequestsPerActiveUser records
  let completions := aggregateCodeCompletions records
  let period := getDateRange records
  { markdown := joinNL
      ["# Usage Trends Report",
       "\n**Period:** " ++ showDay period.startDay ++ " to " ++ showDay period.endDay,
       "\n- Peak daily active users: **" ++
         fmtMax (mathMaxSpread (dailyActive.map (fun d => d.users))) ++ "**",
       "- Peak weekly active users: **" ++
         fmtMax (mathMaxSpread (weeklyActive.map (fun d => d.users))) ++ "**",
       "- Average chat requests per user: **" ++
         toFixed1 ((avgChat.foldl (fun s d => s + d.avg) 0) / (avgChat.length : ℚ)) ++ "**"],
    chartData := none,
    chartsData := some
      [{ title := some "Daily Active Users", type := "line",
         labels := dailyActive.map (fun d => d.day),
         datasets := [{ label := "Active Users", data := dailyActive.map (fun d => (d.users : ℚ)) }] },
       { title := some "Weekly Active Users (7-day rolling)", type := "line",
         labels := weeklyActive.map (fun d => d.day),
         datasets := [{ label := "Weekly Active", data := weeklyActive.map (fun d => (d.users : ℚ)) }] },
       { title := some "Avg Chat Requests per Active User", type := "line",
         labels := avgChat.map (fun d => d.day),
         datasets := [{ label := "Avg Requests", data := avgChat.map (fun d => d.avg) }] },
       { title := some "Code Completions (Shown vs Accepted)", type := "line",
         labels := completions.map (fun d => d.day),
         datasets := [{ label := "Shown", data := completions.map (fun d => (d.shown : ℚ)) },
                      { label := "Accepted", data := completions.map (fun d => (d.accepted : ℚ)) }] }] }

/-- The code/LOC-topic composite response (part_001 lines 1181-1204). -/
def codeReportResponse (records : List Record) : QueryResponse :=
  let dailyLoc := aggregateDailyLocAddedDeleted records
  let userChanges := aggregateUserInitiatedCodeChanges records
  let agentChanges := aggregateAgentInitiatedCodeChanges records
  let agentByModel := (aggregateAgentCodeChangesByModel records).take 8
  { markdown := joinNL
      ["# Code Generation Report",
       "\n| Metric | Value |",
       "|--------|-------|",
       "| Total Lines Added | " ++ fmt (sumField records "loc_added_sum") ++ " |",
       "| Total Lines Deleted | " ++ fmt (sumField records "loc_deleted_sum") ++ " |",
       "| User-Initiated Suggested | " ++ fmt userChanges.suggested ++ " |",
       "| User-Initiated Added | " ++ fmt userChanges.added ++ " |",
       "| Agent Added | " ++ fmt agentChanges.added ++ " |",
       "| Agent Deleted | " ++ fmt agentChanges.deleted ++ " |"],
    chartData := none,
    chartsData := some
      [{ title := some "Daily Lines Added & Deleted", type := "bar",
         labels := dailyLoc.map (fun d => d.day),
         datasets := [{ label := "Added", data := dailyLoc.map (fun d => (d.added : ℚ)) },
                      { label := "Deleted", data := dailyLoc.map (fun d => (d.deleted : ℚ)) }] },
       { title := some "User vs Agent Code Changes", type := "bar",
         labels := ["User Suggested", "User Added", "Agent Added", "Agent Deleted"],
         datasets := [{ label := "Lines of Code",
                        data := [(userChanges.suggested : ℚ), (userChanges.added : ℚ),
                                 (agentChanges.added : ℚ), (agentChanges.deleted : ℚ)] }] },
       { title := some "Agent Code Changes by Model", type := "bar",
         labels := agentByModel.map (fun m => m.model),
         datasets := [{ label := "Added", data := agentByModel.map (fun m => (m.added : ℚ)) },
                      { label := "Deleted", data := agentByModel.map (fun m => (m.deleted : ℚ)) }] }] }

/-- The generic composite response of the report path (part_001 lines
1206-1229). -/
def genericReportResponse (records : List Record) : QueryResponse :=
  let dailyActive := aggregateDailyActiveUsers records
  let features := aggregateByFeature records
  let modelDist := (aggregateChatModelDistribution records).take 8
  let langDist := (aggregateLanguageDistribution records).take 8
  let period := getDateRange records
  { markdown := joinNL
      ["# Custom Report",
       "\n**Period:** " ++ showDay period.startDay ++ " to " ++ showDay period.endDay,
       "\n| Metric | Value |",
       "|--------|-------|",
       "| Active Users | " ++
         fmt (countUsersWhere records (fun r => 0 < r.user_initiated_interaction_count)) ++ " |",
       "| Total Interactions | " ++ fmt (sumField records "user_initiated_interaction_count") ++ " |",
       "| Code Generations | " ++ fmt (sumField records "code_generation_activity_count") ++ " |",
       "| Lines Added | " ++ fmt (sumField records "loc_added_sum") ++ " |"],
    chartData := none,
    chartsData := some
      [{ title := some "Daily Active Users", type := "line",
         labels := dailyActive.map (fun d => d.day),
         datasets := [{ label := "Active Users", data := dailyActive.map (fun d => (d.users : ℚ)) }] },
       { title := some "Feature Usage", type := "bar",
         labels := features.map (fun f => featureDisplayOr f.feature),
         datasets := [{ label := "Interactions", data := features.map (fun f => (f.interactions : ℚ)) }] },
       { title := some "Model Distribution", type := "pie",
         labels := modelDist.map (fun m => m.model),
         datasets := [{ label := "Interactions", data := modelDist.map (fun m => (m.count : ℚ)) }] },
       { title := some "Language Distribution", type := "pie",
         labels := langDist.map (fun l => l.language),
         datasets := [{ label := "Code Generations", data := langDist.map (fun l => (l.count : ℚ)) }] }] }

/-- The per-user report (part_001 lines 1242-1263); unreachable because
`getUserData` is constantly `null`. -/
def userReportResponse (u : UserData) : QueryResponse :=
  { markdown := joinNL
      ["# User Report: @" ++ u.login,
       "\n| Metric | Value |",
       "|--------|-------|",
       "| Total Interactions | " ++ fmt u.interactions ++ " |",
       "| Code Generations | " ++ fmt u.codeGenerated ++ " |",
       "| LOC Added | " ++ fmt u.locAdded ++ " |",
       "| LOC Deleted | " ++ fmt u.locDeleted ++ " |",
       "| Days Active | " ++ intRepr u.daysActive ++ " |",
       "| Used Agent | " ++ (if u.usedAgent then "Yes" else "No") ++ " |",
       "| Used Chat | " ++ (if u.usedChat then "Yes" else "No") ++ " |"],
    chartData := some
      { type := "line",
        labels := u.dailyTrends.map (fun d => d.day),
        datasets := [{ label := "Interactions", data := u.dailyTrends.map (fun d => (d.interactions : ℚ)) },
                     { label := "Code Generated", data := u.dailyTrends.map (fun d => (d.codeGenerated : ℚ)) }] },
    chartsData := none }

/-- The top-users response (part_001 lines 1266-1286): `aggregateTopUsers`
always returns the empty list, so the table has no rows and the bar chart
has empty labels and data, yet `chartData` is a chart object, not `null`. -/
def topUsersResponse (lower : List Char) : QueryResponse :=
  let limit := (findTopNum lower).getD 10
  let topUsers := aggregateTopUsers limit
  { markdown := joinNL
      (["# Top " ++ Nat.repr limit ++ " Users by Interactions",
        "\n| Rank | User | Interactions | Code Generated | LOC Added | Days Active |",
        "|------|------|-------------|----------------|-----------|-------------|"]
       ++ topUsers.mapIdx (fun i u =>
         "| " ++ Nat.repr (i + 1) ++ " | " ++ u.login ++ " | " ++ fmt u.interactions ++ " | " ++
           fmt u.codeGenerated ++ " | " ++ fmt u.locAdded ++ " | " ++ intRepr u.daysActive ++ " |")),
    chartData := some
      { type := "bar",
        labels := topUsers.map (fun u => u.login),
        datasets := [{ label := "Interactions", data := topUsers.map (fun u => (u.interactions : ℚ)) }] },
    chartsData := none }

/-- The trend branch (part_001 lines 1289-1309). -/
def trendResponse (records : List Record) : QueryResponse :=
  let trends := aggregateByDay records
  { markdown := joinNL
      (["# Usage Trends",
        "\n| Day | Active Users | Interactions | Code Generated |",
        "|-----|-------------|-------------|----------------|"]
       ++ trends.map (fun t =>
         "| " ++ t.day ++ " | " ++ fmt t.activeUsers ++ " | " ++ fmt t.interactions ++ " | " ++
           fmt t.codeGenerated ++ " |")),
    chartData := some
      { type := "line",
        labels := trends.map (fun t => t.day),
        datasets := [{ label := "Active Users", data := trends.map (fun t => (t.activeUsers : ℚ)) },
                     { label := "Interactions", data := trends.map (fun t => (t.interactions : ℚ)) }] },
    chartsData := none }

/-- The language branch (part_001 lines 1312-1329). -/
def languageResponse (records : List Record) : QueryResponse :=
  let languages := aggregateByLanguage records
  { markdown := joinNL
      (["# Language Breakdown",
        "\n| Language | Code Generated | LOC Added |",
        "|----------|----------------|-----------|"]
       ++ languages.map (fun l =>
         "| " ++ l.language ++ " | " ++ fmt l.codeGenerated ++ " | " ++ fmt l.locAdded ++ " |")),
    chartData := some
      { type := "bar",
        labels := languages.map (fun l => l.language),
        datasets := [{ label := "Code Generated", data := languages.map (fun l => (l.codeGenerated : ℚ)) }] },
    chartsData := none }

/-- The model branch (part_001 lines 1332-1349). -/
def modelResponse (records : List Record) : QueryResponse :=
  let models := aggregateByModel records
  { markdown := joinNL
      (["# Model Usage",
        "\n| Model | Interactions | Code Generated |",
        "|-------|-------------|----------------|"]
       ++ models.map (fun m =>
         "| " ++ m.model ++ " | " ++ fmt m.interactions ++ " | " ++ fmt m.codeGenerated ++ " |")),
    chartData := some
      { type := "bar",
        labels := models.map (fun m => m.model),
        datasets := [{ label := "Interactions", data := models.map (fun m => (m.interactions : ℚ)) }] },
    chartsData := none }

/-- The feature-comparison branch (part_001 lines 1352-1372). -/
def featureResponse (records : List Record) : QueryResponse :=
  let features := aggregateByFeature records
  { markdown := joinNL
      (["# Feature Comparison",
        "\n| Feature | Interactions | Code Generated | LOC Added |",
        "|---------|-------------|----------------|-----------|"]
       ++ features.map (fun f =>
         "| " ++ f.feature ++ " | " ++ fmt f.interactions ++ " | " ++ fmt f.codeGenerated ++
           " | " ++ fmt f.locAdded ++ " |")),
    chartData := some
      { type := "bar",
        labels := features.map (fun f => f.feature),
        datasets := [{ label := "Interactions", data := features.map (fun f => (f.interactions : ℚ)) },
                     { label := "Code Generated", data := features.map (fun f => (f.codeGenerated : ℚ)) }] },
    chartsData := none }

/-- The IDE branch (part_001 lines 1375-1392).  Each markdown row
interpolates `fmt(i.users)`, and `aggregateByIDE` rows carry no `users`
field, so the first row throws a `TypeError`; with no rows (no IDE data) no
`fmt` call happens and the branch returns normally.  The chart dataset
`ides.map(i => i.users)` is only ever evaluated in the empty case, where it
is `[]`, so the `getD 0` defaulting below is unobservable. -/
def ideResponse (records : List Record) : Except String QueryResponse := do
  let ides := aggregateByIDE records
  let rows ← ides.mapM (fun i => do
    let users ← fmtE i.usersField
    pure ("| " ++ i.ide ++ " | " ++ users ++ " | " ++ fmt i.interactions ++ " |"))
  .ok { markdown := joinNL
          (["# IDE Distribution",
            "\n| IDE | Users | Interactions |",
            "|-----|-------|-------------|"]
           ++ rows),
        chartData := some
          { type := "pie",
            labels := ides.map (fun i => i.ide),
            datasets := [{ label := "Users",
                           data := ides.map (fun i => ((i.usersField.getD 0 : ℤ) : ℚ)) }] },
        chartsData := none }

/-- The active/summary branch (part_001 lines 1395-1425). -/
def summaryResponse (records : List Record) : QueryResponse :=
  let period := getDateRange records
  let allUsersSize := getUniqueUsersSize records
  let acts := records.foldl
    (fun acc r =>
      r.totals_by_feature.foldl
        (fun acc f =>
          let acc1 :=
            if AGENT_FEATURES.contains f.feature then
              (acc.1 + (f.user_initiated_interaction_count + f.code_generation_activity_count), acc.2)
            else acc
          if CHAT_MODES.contains f.feature then (acc1.1, acc1.2 + f.user_initiated_interaction_count)
          else acc1)
        acc)
    ((0 : ℤ), (0 : ℤ))
  { markdown := joinNL
      ["# Summary Statistics",
       "**Period:** " ++ showDay period.startDay ++ " to " ++ showDay period.endDay ++ "\n",
       "| Metric | Value |",
       "|--------|-------|",
       "| Peak Daily Active Users | " ++ fmt allUsersSize ++ " |",
       "| Total Interactions | " ++ fmt (sumField records "user_initiated_interaction_count") ++ " |",
       "| Code Generations | " ++ fmt (sumField records "code_generation_activity_count") ++ " |",
       "| LOC Added | " ++ fmt (sumField records "loc_added_sum") ++ " |",
       "| LOC Deleted | " ++ fmt (sumField records "loc_deleted_sum") ++ " |",
       "| Agent Activity | " ++ fmt acts.1 ++ " |",
       "| Chat Activity | " ++ fmt acts.2 ++ " |"],
    chartData := some
      { type := "doughnut",
        labels := ["Interactions", "Code Generations"],
        datasets := [{ label := "Activity",
                       data := [((sumField records "user_initiated_interaction_count" : ℤ) : ℚ),
                                ((sumField records "code_generation_activity_count" : ℤ) : ℚ)] }] },
    chartsData := none }

/-- The final fallback response (part_001 lines 1428-1441). -/
def fallbackResponse (records : List Record) : QueryResponse :=
  let period := getDateRange records
  let allUsersSize := getUniqueUsersSize records
  { markdown := joinNL
      ["# Query Results",
       "\nI wasn\x27t sure exactly what you were looking for. Here\x27s a general summary:\n",
       "- **" ++ fmt allUsersSize ++ "** total users, period " ++ showDay period.startDay ++
         " to " ++ showDay period.endDay,
       "- **" ++ fmt (sumField records "user_initiated_interaction_count") ++ "** total interactions",
       "- **" ++ fmt (sumField records "code_generation_activity_count") ++ "** code generations",
       "- **" ++ fmt (sumField records "loc_added_sum") ++ "** lines of code added",
       "\nTry asking about: top users, trends, languages, models, features, IDEs, or a specific @username."],
    chartData := none,
    chartsData := none }

/-- Embedding of `handleQuery` (part_001 line 1077): the ordered,
first-match-wins classification.  Only the IDE branch can fail (see
`ideResponse`); every other branch is total. -/
def handleQuery (records : List Record) (prompt : String) : Except String QueryResponse :=
  let lower := lowerStr prompt
  if matchesReportPattern prompt then
    if includes lower "language" || includes lower "lang" then .ok (langReportResponse records)
    else if includes lower "model" then .ok (modelReportResponse records)
    else if includes lower "agent" || includes lower "adoption" || includes lower "feature" then
      .ok (featureReportResponse records)
    else if includes lower "trend" || includes lower "usage" || includes lower "active" ||
        includes lower "daily" || includes lower "weekly" then
      .ok (trendsReportResponse records)
    else if includes lower "code" || includes lower "loc" || includes lower "line" then
      .ok (codeReportResponse records)
    else .ok (genericReportResponse records)
  else
    match findMention prompt.data with
    | some name =>
        (match getUserData name with
         | none => .ok { markdown := "No data found for user **@" ++ name ++ "**.",
                         chartData := none, chartsData := none }
         | some u => .ok (userReportResponse u))
    | none =>
        if includes lower "top" && includes lower "user" then .ok (topUsersResponse lower)
        else if includes lower "trend" then .ok (trendResponse records)
        else if includes lower "language" then .ok (languageResponse records)
        else if includes lower "model" then .ok (modelResponse records)
        else if includes lower "feature" || includes lower "compare" || includes lower "agent" ||
            includes lower "chat" then
          .ok (featureResponse records)
        else if includes lower "ide" then ideResponse records
        else if includes lower "active" || includes lower "summary" || includes lower "how many" then
          .ok (summaryResponse records)
        else .ok (fallbackResponse records)

/-! ### Report compiler: the usage-trends report (part_001 lines 946-969)

`generateReports` assigns eight pre-generated reports in sequence; on an
empty store the first three (`copilot-usage`, `code-generation`,
`executive-summary`) complete (their divisions and reductions are guarded or
have initial values), and the `usage-trends` report is the first expression
that throws: `trends.reduce((a, b) => ...)` with no initial value on the
empty `trends` array.  The builder below is that report's section; both
reduces are bound up front, which fails in exactly the same cases (empty
`trends`) as the source's template-literal evaluation order. -/

/-- The usage-trends report of `generateReports`. -/
def generateUsageTrendsReport (records : List Record) : Except String QueryResponse := do
  let period := getDateRange records
  let trends := aggregateByDay records
  let peakActive ← jsReduce1 (fun a b => if a.activeUsers > b.activeUsers then a else b) trends
  let peakInteractions ← jsReduce1 (fun a b => if a.interactions > b.interactions then a else b) trends
  .ok { markdown := joinNL
          (["# 📈 Usage Trends",
            "**Period:** " ++ showDay period.startDay ++ " to " ++ showDay period.endDay ++ "\n",
            "| Day | Active Users | Interactions | Code Generated | LOC Added |",
            "|-----|-------------|-------------|----------------|-----------|"]
           ++ trends.map (fun t =>
             "| " ++ t.day ++ " | " ++ fmt t.activeUsers ++ " | " ++ fmt t.interactions ++
               " | " ++ fmt t.codeGenerated ++ " | " ++ fmt t.locAdded ++ " |")
           ++ ["",
               "## Summary",
               "- Peak active users: **" ++
                 fmtMax (mathMaxSpread (trends.map (fun t => t.activeUsers))) ++ "** on " ++
                 peakActive.day,
               "- Peak interactions: **" ++
                 fmtMax (mathMaxSpread (trends.map (fun t => t.interactions))) ++ "** on " ++
                 peakInteractions.day]),
        chartData := some
          { type := "line",
            labels := trends.map (fun t => t.day),
            datasets := [{ label := "Active Users", data := trends.map (fun t => (t.activeUsers : ℚ)) },
                         { label := "Interactions", data := trends.map (fun t => (t.interactions : ℚ)) }] },
        chartsData := none }

/-! ### Refresh concurrency (src/mcp/index.js lines 287-297 and 372-383,
part_001 lines 1775-1784)

The flags `dataLoaded : Bool` and `dataLoading : Promise | null` of the MCP
server, together with the number of `loadAllData` calls currently awaiting,
form the state; the dashboard's `POST /api/refresh` has no flags at all.
Each entry point is one start event, and each completion of a `loadAllData`
call is one completion event; events interleave arbitrarily, which models
concurrent requests. -/

/-- Observable loading state shared by the refresh entry points. -/
structure LoadState where
  dataLoaded : Bool
  dataLoadingSet : Bool
  activeLoads : ℕ
  deriving DecidableEq

/-- The refresh-cycle events. -/
inductive RefreshEvent where
  /-- A call to `ensureData()`: if `dataLoaded` it returns, if `dataLoading`
  is set it awaits that same promise, otherwise it stores a new
  `loadAllData()` promise and awaits it. -/
  | ensureCall : RefreshEvent
  /-- Completion of a load started through `ensureData` (the `.then` sets
  `dataLoaded = true`; `dataLoading` keeps the settled promise). -/
  | lazyLoadDone : RefreshEvent
  /-- A call to the MCP `refresh_data` tool: it clears both flags and always
  starts a fresh `loadAllData()`, regardless of any in-flight load. -/
  | mcpRefreshCall : RefreshEvent
  /-- Completion of a `refresh_data` load (`dataLoaded = true`). -/
  | mcpRefreshDone : RefreshEvent
  /-- A `POST /api/refresh` on the dashboard server: always starts
  `loadAllData()` with no synchronization flag at all. -/
  | dashRefreshCall : RefreshEvent
  /-- Completion of a dashboard refresh. -/
  | dashRefreshDone : RefreshEvent
  deriving DecidableEq

/-- One event step of the refresh state machine. -/
def stepLoad (s : LoadState) : RefreshEvent → LoadState
  | .ensureCall =>
      if s.dataLoaded then s
      else if s.dataLoadingSet then s
      else { s with dataLoadingSet := true, activeLoads := s.activeLoads + 1 }
  | .lazyLoadDone => { s with dataLoaded := true, activeLoads := s.activeLoads - 1 }
  | .mcpRefreshCall =>
      { dataLoaded := false, dataLoadingSet := false, activeLoads := s.activeLoads + 1 }
  | .mcpRefreshDone => { s with dataLoaded := true, activeLoads := s.activeLoads - 1 }
  | .dashRefreshCall => { s with activeLoads := s.activeLoads + 1 }
  | .dashRefreshDone => { s with activeLoads := s.activeLoads - 1 }

/-- Run a sequence of refresh events from a state. -/
def runLoad (s : LoadState) (es : List RefreshEvent) : LoadState := es.foldl stepLoad s

/-- The initial state of both servers: nothing loaded, no promise stored, no
load in flight. -/
def initLoadState : LoadState := { dataLoaded := false, dataLoadingSet := false, activeLoads := 0 }

/-! ### Concrete inputs used by witnesses and counterexamples -/

/-- A store with one day and one IDE entry. -/
def ideRecords : List Record :=
  [{ day := "2026-01-01",
     totals_by_ide := [{ ide := "vscode", user_initiated_interaction_count := 3,
                         code_generation_activity_count := 1 }] }]

/-- A store with one day on which six models have one interaction each: the
top five models and the `"Other"` bucket then each hold a 1/6 share. -/
def modelSixRecord : Record :=
  { day := "2026-01-01",
    totals_by_model_feature :=
      [{ model := "m1", user_initiated_interaction_count := 1 },
       { model := "m2", user_initiated_interaction_count := 1 },
       { model := "m3", user_initiated_interaction_count := 1 },
       { model := "m4", user_initiated_interaction_count := 1 },
       { model := "m5", user_initiated_interaction_count := 1 },
       { model := "m6", user_initiated_interaction_count := 1 }] }

/-- A store with sixteen distinct languages on one day. -/
def sixteenLangRecords : List Record :=
  [{ day := "2026-01-01",
     totals_by_language_feature :=
       (List.range 16).map (fun i =>
         { language := "lang" ++ Nat.repr i, code_generation_activity_count := (20 - i : ℤ) }) }]

/-- The two-day store of the specification's worked scenario (section 8). -/
def twoDayRecords : List Record :=
  [{ day := "2026-01-01", daily_active_users := 100 },
   { day := "2026-01-02", daily_active_users := 120 }]

/-- The series of raw daily-active-user values per sorted day (the claim's
"raw daily values"): the `dauByDay` value of each day of
`getSortedDays`. -/
def rawDauSeries (records : List Record) : List ℤ :=
  (getSortedDays records).map (fun d => lookupD (dauByDay records) d 0)

/-- The rolling window of raw values at index `i`: indices
`[max(0, i-6), i]` inclusive. -/
def dauWindow (records : List Record) (i : ℕ) : List ℤ :=
  jsSlice (rawDauSeries records) (i - 6) (i + 1)

/-! ### Theorems -/

/-- C3: for every bucket list, numeric sort key and `n ≥ 0`, `topNWithOther`
conserves the key total — the key-sum over `top` plus `otherValue` equals
the key-sum over all buckets — and for `n = 0` the `top` is empty and
`otherValue` is the grand total. -/
theorem topN_conservation {α : Type} (arr : List α) (key : α → ℤ) (n : ℕ) :
    ((((topN arr key n).top.map key).sum + (topN arr key n).otherVal = (arr.map key).sum) ∧
     (topN arr key 0).top = [] ∧ (topN arr key 0).otherVal = (arr.map key).sum) := by
  have hperm : (sortByDesc key arr).Perm arr := List.perm_insertionSort _ arr
  have hsum : ((sortByDesc key arr).map key).sum = (arr.map key).sum := (hperm.map key).sum_eq
  refine ⟨?_, rfl, ?_⟩
  · show ((List.take n (sortByDesc key arr)).map key).sum +
        ((List.drop n (sortByDesc key arr)).map key).sum = (arr.map key).sum
    rw [← List.sum_append, ← List.map_append, List.take_append_drop, hsum]
  · show ((List.drop 0 (sortByDesc key arr)).map key).sum = (arr.map key).sum
    rw [List.drop_zero, hsum]

/-- C2 counterexample: at the concrete store `[]`, the prompt
`"top 10 users"` yields a response whose chart field is a chart object, not
`null`, refuting the claim that both unavailable-data prompts yield a null
chart. -/
theorem topUsers_chart_not_null :
    ¬ ((handleQuery ([] : List Record) "top 10 users").toOption.map (fun r => r.chartData) =
        some none) := by
  decide

/-- C2 amended: for every record collection, `"@alice usage"` yields the
no-data markdown with a null chart, while `"top 10 users"` yields an empty
leaderboard table (header rows only, no unavailability statement) together
with a bar chart object with empty labels and data — a chart that is
present, not `null`. -/
theorem unavailable_data_responses (records : List Record) :
    (handleQuery records "@alice usage" =
      .ok { markdown := "No data found for user **@alice**.",
            chartData := none, chartsData := none }) ∧
    (handleQuery records "top 10 users" = .ok (topUsersResponse (lowerStr "top 10 users"))) ∧
    ((topUsersResponse (lowerStr "top 10 users")).markdown =
      "# Top 10 Users by Interactions\n\n| Rank | User | Interactions | Code Generated | LOC Added | Days Active |\n|------|------|-------------|----------------|-----------|-------------|") ∧
    ((topUsersResponse (lowerStr "top 10 users")).chartData =
      some { type := "bar", labels := [], datasets := [{ label := "Interactions", data := [] }] }) :=
  ⟨rfl, rfl, rfl, rfl⟩

/-- C1: at the store `ideRecords` (one totals-by-IDE entry) the prompt
`"ide"` reaches the IDE branch, whose markdown row interpolates
`fmt(i.users)`; `aggregateByIDE` rows have no `users` field, so the call is
`undefined.toLocaleString('en-US')` and `handleQuery` throws instead of
returning a value. -/
theorem handleQuery_ide_throws :
    handleQuery ideRecords "ide" =
      .error "TypeError: Cannot read properties of undefined (reading \x27toLocaleString\x27)" := by
  rfl

/-- C7: on an empty store every aggregation degrades to its identity (zero
sums, empty lists, empty series), but the usage-trends section of
`generateReports` throws — `trends.reduce((a, b) => ...)` with no initial
value on the empty trends array — so report compilation does not complete. -/
theorem empty_store_identities_and_usage_trends_failure :
    (∀ f : String, sumField [] f = 0) ∧
    aggregateByDay [] = [] ∧
    aggregateByFeature [] = [] ∧
    aggregateByLanguage [] = [] ∧
    aggregateByModel [] = [] ∧
    aggregateByIDE [] = [] ∧
    getLanguageUsage [] = [] ∧
    aggregateTopUsers 20 = [] ∧
    aggregateDailyActiveUsers [] = [] ∧
    aggregateWeeklyActiveUsers [] = [] ∧
    (aggregateModelUsagePerDay []).days = [] ∧
    (aggregateLanguageUsagePerDay []).days = [] ∧
    generateUsageTrendsReport [] =
      .error "TypeError: Reduce of empty array with no initial value" :=
  ⟨fun _ => rfl, rfl, rfl, rfl, rfl, rfl, rfl, rfl, rfl, rfl, rfl, rfl, rfl⟩

/-- C6: for every record collection, a prompt matching the report-creation
pattern that contains both a language keyword and the model keyword
resolves to the language-topic composite — the language check precedes the
model check, so language wins. -/
theorem report_language_priority (records : List Record) (prompt : String)
    (hReport : matchesReportPattern prompt = true)
    (hLang : (includes (lowerStr prompt) "language" || includes (lowerStr prompt) "lang") = true)
    (_hModel : includes (lowerStr prompt) "model" = true) :
    handleQuery records prompt = .ok (langReportResponse records) := by
  unfold handleQuery
  simp only [hReport, hLang, if_true]

/-- Witness for C6 at the prompt of the specification's dispatcher-priority
property. -/
theorem report_language_priority_witness :
    (matchesReportPattern "generate a language and model report" = true ∧
     (includes (lowerStr "generate a language and model report") "language" ||
       includes (lowerStr "generate a language and model report") "lang") = true ∧
     includes (lowerStr "generate a language and model report") "model" = true) ∧
    handleQuery [] "generate a language and model report" = .ok (langReportResponse []) :=
  ⟨⟨by decide, by decide, by decide⟩,
   report_language_priority [] "generate a language and model report"
     (by decide) (by decide) (by decide)⟩

/-- C10 counterexample: two `refresh_data` calls arriving before either load
completes leave two concurrent `loadAllData` fetches in flight — the
explicit refresh entry points do not attach to the in-flight load. -/
theorem double_refresh_two_loads :
    (runLoad initLoadState
        [RefreshEvent.mcpRefreshCall, RefreshEvent.mcpRefreshCall]).activeLoads = 2 ∧
    ¬ ((runLoad initLoadState
        [RefreshEvent.mcpRefreshCall, RefreshEvent.mcpRefreshCall]).activeLoads ≤ 1) :=
  ⟨rfl, by decide⟩

/-- C10 amended: the lazy entry point `ensureData` does attach to an
in-flight load — when the shared `dataLoading` promise is set, an
`ensureData` call changes nothing — and along any event sequence that uses
only `ensureData` and its load completions, at most one load is ever in
flight.  The explicit refresh entry points violate the property (see the
counterexample). -/
theorem ensureData_single_flight :
    (∀ s : LoadState, s.dataLoadingSet = true → stepLoad s RefreshEvent.ensureCall = s) ∧
    (∀ es : List RefreshEvent,
      (∀ e ∈ es, e = RefreshEvent.ensureCall ∨ e = RefreshEvent.lazyLoadDone) →
      (runLoad initLoadState es).activeLoads ≤ 1) := by
  constructor
  · intro s hs
    simp [stepLoad, hs]
  · have key : ∀ (es : List RefreshEvent) (s : LoadState),
        (∀ e ∈ es, e = RefreshEvent.ensureCall ∨ e = RefreshEvent.lazyLoadDone) →
        s.activeLoads ≤ 1 → (s.dataLoadingSet = false → s.activeLoads = 0) →
        (runLoad s es).activeLoads ≤ 1 ∧
          ((runLoad s es).dataLoadingSet = false → (runLoad s es).activeLoads = 0) := by
      intro es
      induction es with
      | nil => intro s _ h1 h2; exact ⟨h1, h2⟩
      | cons e es ih =>
        intro s hes h1 h2
        have hrun : runLoad s (e :: es) = runLoad (stepLoad s e) es := rfl
        rw [hrun]
        have he := hes e (List.mem_cons_self _ _)
        have hes2 : ∀ x ∈ es, x = RefreshEvent.ensureCall ∨ x = RefreshEvent.lazyLoadDone :=
          fun x hx => hes x (List.mem_cons_of_mem _ hx)
        rcases he with rfl | rfl
        · by_cases hl : s.dataLoaded
          · exact ih (stepLoad s RefreshEvent.ensureCall) hes2
              (by simpa [stepLoad, hl] using h1) (by simpa [stepLoad, hl] using h2)
          · by_cases hset : s.dataLoadingSet
            · exact ih _ hes2 (by simp only [stepLoad, hl, if_false, hset, if_true]; exact h1)
                (by simp only [stepLoad, hl, if_false, hset, if_true]; exact h2)
            · have hz : s.activeLoads = 0 := h2 (by simp [hset])
              refine ih _ hes2 ?_ ?_
              · simp [stepLoad, hl, hset, hz]
              · simp [stepLoad, hl, hset, hz]
        · refine ih _ hes2 ?_ ?_
          · exact le_trans (Nat.sub_le _ _) h1
          · intro hf
            simp only [stepLoad] at hf ⊢
            have := h2 hf
            simp [this]
    intro es hes
    exact (key es initLoadState hes (by simp [initLoadState]) (by simp [initLoadState])).1

/-- Witness for C10 amended on a concrete ensure-only event sequence. -/
theorem ensureData_single_flight_witness :
    (∀ e ∈ [RefreshEvent.ensureCall, RefreshEvent.ensureCall, RefreshEvent.lazyLoadDone,
        RefreshEvent.ensureCall],
      e = RefreshEvent.ensureCall ∨ e = RefreshEvent.lazyLoadDone) ∧
    (runLoad initLoadState [RefreshEvent.ensureCall, RefreshEvent.ensureCall,
        RefreshEvent.lazyLoadDone, RefreshEvent.ensureCall]).activeLoads ≤ 1 :=
  ⟨by decide, ensureData_single_flight.2 _ (by decide)⟩

/-- C5 counterexample: at the one-day store `[modelSixRecord]` the model
usage-per-day series has six categories (five top models and `"Other"`) of
one interaction each, and `stackedDayPercents` — the exact row of values
`aggregateModelUsagePerDay` pushes for that day — is six times `16.67`,
summing to `100.02`: outside the claimed `0.01` rounding tolerance. -/
theorem normalized_series_tolerance_violation :
    stackedDayPercents (topFiveKeys (modelWindowTotals [modelSixRecord])) extractModelCount
        (lookupD (getRecordsByDay [modelSixRecord]) "2026-01-01" []) =
      List.replicate 6 (1667 / 100) ∧
    ¬ (|(List.replicate 6 ((1667 : ℚ) / 100)).sum - 100| ≤ 1 / 100) := by
  constructor
  · have hk : topFiveKeys (modelWindowTotals [modelSixRecord]) =
        ["m1", "m2", "m3", "m4", "m5"] := by decide
    have hd : lookupD (getRecordsByDay [modelSixRecord]) "2026-01-01" [] = [modelSixRecord] := by
      decide
    have hc : stackedDayCounts ["m1", "m2", "m3", "m4", "m5"] extractModelCount [modelSixRecord] =
        [("m1", 1), ("m2", 1), ("m3", 1), ("m4", 1), ("m5", 1), ("Other", 1)] := by decide
    have ht : stackedDayTotal ["m1", "m2", "m3", "m4", "m5"] extractModelCount [modelSixRecord] =
        6 := by decide
    simp only [stackedDayPercents, hk, hd, ht, hc]
    norm_num [lookupD, jsRound, Int.floor_eq_iff, List.replicate]
  · simp only [List.sum_replicate, nsmul_eq_mul]
    rw [show (6 : ℕ) * ((1667 : ℚ) / 100) - 100 = 1 / 50 by norm_num]
    rw [show |(1 : ℚ) / 50| = 1 / 50 from abs_of_nonneg (by norm_num)]
    norm_num

/-- C9 counterexample: with sixteen distinct languages in the window, the
dashboard's language aggregation returns 15 entries while the MCP server's
returns 16, refuting that the two produce the same number of entries. -/
theorem language_aggregations_disagree :
    (aggregateByLanguage sixteenLangRecords).length ≠
      (getLanguageUsage sixteenLangRecords).length := by
  decide

/-- Inserting an element whose key equals `v` places it before every element
of equal key: the elements skipped by `orderedInsert` have strictly greater
keys. -/
theorem filter_orderedInsert_of_key_eq {α : Type} (key : α → ℤ) (v : ℤ) (x : α) (l : List α)
    (hx : key x = v) :
    (List.orderedInsert (fun a b => key b ≤ key a) x l).filter (fun y => key y = v) =
      x :: l.filter (fun y => key y = v) := by
  induction l with
  | nil => simp [List.orderedInsert, hx]
  | cons y ys ih =>
    rw [List.orderedInsert]
    by_cases h : key y ≤ key x
    · rw [if_pos h]
      simp [List.filter_cons, hx]
    · rw [if_neg h]
      have hy : ¬ (key y = v) := fun hv => h (le_of_eq (hv.trans hx.symm))
      simp [List.filter_cons, hy, ih]

/-- Inserting an element whose key differs from `v` leaves the key-`v`
elements of the list unchanged. -/
theorem filter_orderedInsert_of_key_ne {α : Type} (key : α → ℤ) (v : ℤ) (x : α) (l : List α)
    (hx : ¬ (key x = v)) :
    (List.orderedInsert (fun a b => key b ≤ key a) x l).filter (fun y => key y = v) =
      l.filter (fun y => key y = v) := by
  induction l with
  | nil => simp [List.orderedInsert, hx]
  | cons y ys ih =>
    rw [List.orderedInsert]
    by_cases h : key y ≤ key x
    · rw [if_pos h]
      simp [List.filter_cons, hx]
    · rw [if_neg h]
      simp [List.filter_cons, ih]

/-- Stability of the embedded sort: the key-`v` elements of the sorted list
are exactly the key-`v` elements of the input, in input order. -/
theorem filter_insertionSort_key {α : Type} (key : α → ℤ) (v : ℤ) (l : List α) :
    (List.insertionSort (fun a b => key b ≤ key a) l).filter (fun y => key y = v) =
      l.filter (fun y => key y = v) := by
  induction l with
  | nil => rfl
  | cons x xs ih =>
    rw [List.insertionSort]
    by_cases hx : key x = v
    · rw [filter_orderedInsert_of_key_eq key v x _ hx, ih]
      simp [List.filter_cons, hx]
    · rw [filter_orderedInsert_of_key_ne key v x _ hx, ih]
      simp [List.filter_cons, hx]

/-- C8: `topNWithOther` sorts stably — `top` is sorted descending by the
sort key, and for every key value the buckets of that key appear in `top`
in their relative input order (their filter is a sublist of the input's
filter). -/
theorem topN_sorted_and_stable {α : Type} (arr : List α) (key : α → ℤ) (n : ℕ) :
    List.Sorted (fun a b => key b ≤ key a) (topN arr key n).top ∧
    ∀ v : ℤ, List.Sublist ((topN arr key n).top.filter (fun x => key x = v))
      (arr.filter (fun x => key x = v)) := by
  constructor
  · letI : IsTotal α (fun a b => key b ≤ key a) := ⟨fun a b => le_total (key b) (key a)⟩
    letI : IsTrans α (fun a b => key b ≤ key a) := ⟨fun a b c hab hbc => le_trans hbc hab⟩
    have hs := List.sorted_insertionSort (fun a b => key b ≤ key a) arr
    exact hs.sublist (List.take_sublist n _)
  · intro v
    have h1 : List.Sublist ((topN arr key n).top.filter (fun x => key x = v))
        ((List.insertionSort (fun a b => key b ≤ key a) arr).filter (fun x => key x = v)) :=
      (List.take_sublist n _).filter _
    rw [filter_insertionSort_key key v arr] at h1
    exact h1


/-- Slicing commutes with mapping. -/
theorem jsSlice_map {α β : Type} (f : α → β) (l : List α) (a b : ℕ) :
    jsSlice (l.map f) a b = (jsSlice l a b).map f := by
  simp [jsSlice, List.map_take, List.map_drop]

/-- Set-insertion deduplication produces a duplicate-free list. -/
theorem nodup_firstDedup : ∀ l : List String, (firstDedup l).Nodup
  | [] => List.nodup_nil
  | x :: xs => by
    rw [firstDedup]
    refine List.nodup_cons.mpr ⟨?_, (nodup_firstDedup xs).filter _⟩
    intro hmem
    have := List.of_mem_filter hmem
    simp at this

/-- C4: the rolling-window averaged daily-active-users series has one entry
per distinct day in sorted order, and the entry at index `i` is the
`Math.round` of the mean of the raw daily values over indices
`[max(0, i-6), i]` inclusive; for `i < 6` the window holds exactly `i + 1`
samples (it shrinks at the start, no padding). -/
theorem weekly_rolling_window (records : List Record) :
    ((aggregateWeeklyActiveUsers records).map (fun e => e.day) = getSortedDays records) ∧
    List.Sorted (fun a b : String => a ≤ b) (getSortedDays records) ∧
    (getSortedDays records).Nodup ∧
    ∀ i, ∀ h : i < (aggregateWeeklyActiveUsers records).length,
      (((aggregateWeeklyActiveUsers records).get ⟨i, h⟩).users =
        jsRound (((dauWindow records i).sum : ℚ) / ((dauWindow records i).length : ℚ))) ∧
      (dauWindow records i).length = min (i + 1) 7 ∧
      (i < 6 → (dauWindow records i).length = i + 1) := by
  refine ⟨?_, ?_, ?_, ?_⟩
  · rw [show aggregateWeeklyActiveUsers records =
        (getSortedDays records).mapIdx (fun idx day =>
          { day := day,
            users := jsRound (((((jsSlice (getSortedDays records) (idx - 6) (idx + 1)).map
                (fun d => lookupD (dauByDay records) d 0)).sum : ℤ) : ℚ) /
              (((jsSlice (getSortedDays records) (idx - 6) (idx + 1)).length : ℕ) : ℚ)) }) from rfl]
    rw [List.mapIdx_eq_enum_map, List.map_map]
    rw [show ((fun e : DayUsers => e.day) ∘ Function.uncurry fun idx day =>
        ({ day := day,
           users := jsRound (((((jsSlice (getSortedDays records) (idx - 6) (idx + 1)).map
               (fun d => lookupD (dauByDay records) d 0)).sum : ℤ) : ℚ) /
             (((jsSlice (getSortedDays records) (idx - 6) (idx + 1)).length : ℕ) : ℚ)) } :
           DayUsers)) = Prod.snd from funext fun p => rfl]
    exact List.enum_map_snd _
  · exact List.sorted_insertionSort _ _
  · exact (List.perm_insertionSort _ _).nodup_iff.mpr (nodup_firstDedup _)
  · intro i h
    have h2 : i < (getSortedDays records).length := by
      have := h
      rw [show (aggregateWeeklyActiveUsers records).length = (getSortedDays records).length from
        List.length_mapIdx] at this
      exact this
    have hwin : dauWindow records i =
        (jsSlice (getSortedDays records) (i - 6) (i + 1)).map
          (fun d => lookupD (dauByDay records) d 0) := by
      rw [dauWindow, rawDauSeries, jsSlice_map]
    have hlen : (dauWindow records i).length = min (i + 1) 7 := by
      rw [hwin, List.length_map, jsSlice, List.length_take, List.length_drop]
      omega
    refine ⟨?_, hlen, fun h6 => by rw [hlen]; omega⟩
    have hget := List.get_mapIdx (getSortedDays records)
      (fun idx day =>
        ({ day := day,
           users := jsRound (((((jsSlice (getSortedDays records) (idx - 6) (idx + 1)).map
               (fun d => lookupD (dauByDay records) d 0)).sum : ℤ) : ℚ) /
             (((jsSlice (getSortedDays records) (idx - 6) (idx + 1)).length : ℕ) : ℚ)) } :
          DayUsers)) i h2
    rw [show ((aggregateWeeklyActiveUsers records).get ⟨i, h⟩).users =
        (((getSortedDays records).mapIdx (fun idx day =>
          ({ day := day,
             users := jsRound (((((jsSlice (getSortedDays records) (idx - 6) (idx + 1)).map
                 (fun d => lookupD (dauByDay records) d 0)).sum : ℤ) : ℚ) /
               (((jsSlice (getSortedDays records) (idx - 6) (idx + 1)).length : ℕ) : ℚ)) } :
            DayUsers))).get ⟨i, by rwa [List.length_mapIdx]⟩).users from rfl]
    rw [hget]
    rw [hwin]
    simp [List.length_map]

/-- Witness for C4 on the two-day store: day 2 averages the two raw values,
`round((100+120)/2) = 110`. -/
theorem weekly_rolling_window_witness :
    (1 < (aggregateWeeklyActiveUsers twoDayRecords).length) ∧
    ((aggregateWeeklyActiveUsers twoDayRecords).get ⟨1, by with_unfolding_all decide⟩).users =
      jsRound (((dauWindow twoDayRecords 1).sum : ℚ) / ((dauWindow twoDayRecords 1).length : ℚ)) ∧
    ((aggregateWeeklyActiveUsers twoDayRecords).get ⟨1, by with_unfolding_all decide⟩).users = 110 :=
  ⟨by with_unfolding_all decide, ((weekly_rolling_window twoDayRecords).2.2.2 1 (by with_unfolding_all decide)).1,
   by with_unfolding_all decide⟩


/-- The JavaScript map update commutes with a value projection that
commutes with the update functions. -/
theorem jsUpdate_map {β γ : Type} (g : β → γ) (k : String) (fM : β → β) (fG : γ → γ)
    (dM : β) (dG : γ) (hf : ∀ v, g (fM v) = fG (g v)) (hd : g dM = dG) :
    ∀ l : List (String × β),
      jsUpdate (l.map (fun p => (p.1, g p.2))) k fG dG =
        (jsUpdate l k fM dM).map (fun p => (p.1, g p.2))
  | [] => by
      simp only [List.map, jsUpdate]
      rw [← hd, hf]
  | (k1, w) :: rest => by
      simp only [List.map, jsUpdate]
      by_cases h : k1 = k
      · simp [h, hf]
      · simp [h, jsUpdate_map g k fM fG dM dG hf hd rest]

/-- The dashboard language grouping is the field projection of the MCP
language grouping: both walk the same entries in the same order. -/
theorem langGraphD_eq (records : List Record) :
    langGraphD records = (langGraphM records).map (fun p => (p.1, projMetD p.2)) := by
  rw [langGraphD, langGraphM]
  have inner : ∀ (es : List LangEntry) (acc : List (String × LangMetricsM)),
      es.foldl
        (fun acc l =>
          jsUpdate acc l.language
            (fun d =>
              { codeGenerated := d.codeGenerated + l.code_generation_activity_count,
                locAdded := d.locAdded + l.loc_added_sum })
            ({} : LangMetricsD))
        (acc.map (fun p => (p.1, projMetD p.2))) =
      (es.foldl
        (fun acc l =>
          jsUpdate acc l.language
            (fun d =>
              { codeGenerated := d.codeGenerated + l.code_generation_activity_count,
                codeAccepted := d.codeAccepted + l.code_acceptance_activity_count,
                locAdded := d.locAdded + l.loc_added_sum })
            ({} : LangMetricsM))
        acc).map (fun p => (p.1, projMetD p.2)) := by
    intro es
    induction es with
    | nil => intro acc; rfl
    | cons e es ih =>
        intro acc
        simp only [List.foldl]
        rw [jsUpdate_map projMetD e.language
          (fun d =>
            { codeGenerated := d.codeGenerated + e.code_generation_activity_count,
              codeAccepted := d.codeAccepted + e.code_acceptance_activity_count,
              locAdded := d.locAdded + e.loc_added_sum })
          (fun d =>
            { codeGenerated := d.codeGenerated + e.code_generation_activity_count,
              locAdded := d.locAdded + e.loc_added_sum })
          ({} : LangMetricsM) ({} : LangMetricsD)
          (fun v => rfl) rfl]
        exact ih _
  have outer : ∀ (rs : List Record) (acc : List (String × LangMetricsM)),
      rs.foldl
        (fun acc r =>
          r.totals_by_language_feature.foldl
            (fun acc l =>
              jsUpdate acc l.language
                (fun d =>
                  { codeGenerated := d.codeGenerated + l.code_generation_activity_count,
                    locAdded := d.locAdded + l.loc_added_sum })
                ({} : LangMetricsD))
            acc)
        (acc.map (fun p => (p.1, projMetD p.2))) =
      (rs.foldl
        (fun acc r =>
          r.totals_by_language_feature.foldl
            (fun acc l =>
              jsUpdate acc l.language
                (fun d =>
                  { codeGenerated := d.codeGenerated + l.code_generation_activity_count,
                    codeAccepted := d.codeAccepted + l.code_acceptance_activity_count,
                    locAdded := d.locAdded + l.loc_added_sum })
                ({} : LangMetricsM))
            acc)
        acc).map (fun p => (p.1, projMetD p.2)) := by
    intro rs
    induction rs with
    | nil => intro acc; rfl
    | cons r rs ih =>
        intro acc
        simp only [List.foldl]
        rw [inner]
        exact ih _
  simpa using outer records []

/-- Ordered insertion commutes with a key-preserving map. -/
theorem map_orderedInsert {α β : Type} (g : α → β) (keyA : α → ℤ) (keyB : β → ℤ)
    (hkey : ∀ a, keyB (g a) = keyA a) (x : α) :
    ∀ l : List α,
      List.orderedInsert (fun a b => keyB b ≤ keyB a) (g x) (l.map g) =
        (List.orderedInsert (fun a b => keyA b ≤ keyA a) x l).map g
  | [] => rfl
  | y :: ys => by
      simp only [List.map, List.orderedInsert, hkey]
      by_cases h : keyA y ≤ keyA x
      · rw [if_pos h, if_pos h]
        rfl
      · rw [if_neg h, if_neg h]
        simp [map_orderedInsert g keyA keyB hkey x ys]

/-- The stable descending sort commutes with a key-preserving map. -/
theorem sortByDesc_map {α β : Type} (g : α → β) (keyA : α → ℤ) (keyB : β → ℤ)
    (hkey : ∀ a, keyB (g a) = keyA a) :
    ∀ l : List α, sortByDesc keyB (l.map g) = (sortByDesc keyA l).map g
  | [] => rfl
  | x :: xs => by
      simp only [sortByDesc, List.map, List.insertionSort]
      rw [show List.insertionSort (fun a b => keyB b ≤ keyB a) (xs.map g) =
          sortByDesc keyB (xs.map g) from rfl,
        sortByDesc_map g keyA keyB hkey xs]
      exact map_orderedInsert g keyA keyB hkey x _

/-- C9 amended: the dashboard's `aggregateByLanguage` equals the MCP's
`getLanguageUsage` truncated to its first 15 entries and projected onto the
two shared metric fields — same languages, same order, same
`codeGenerated`/`locAdded` totals; the MCP result additionally carries
`codeAccepted` and keeps up to 20 entries. -/
theorem language_aggregation_refinement (records : List Record) :
    aggregateByLanguage records = ((getLanguageUsage records).take 15).map LangAggM.toD := by
  rw [aggregateByLanguage, getLanguageUsage, langGraphD_eq, List.map_map]
  rw [show ((fun p : String × LangMetricsD =>
      ({ language := p.1, codeGenerated := p.2.codeGenerated,
         locAdded := p.2.locAdded } : LangAggD)) ∘ fun p : String × LangMetricsM =>
        (p.1, projMetD p.2)) =
      (LangAggM.toD ∘ fun p : String × LangMetricsM =>
        ({ language := p.1, codeGenerated := p.2.codeGenerated,
           codeAccepted := p.2.codeAccepted, locAdded := p.2.locAdded } : LangAggM)) from
    funext fun p => rfl]
  rw [← List.map_map]
  rw [sortByDesc_map LangAggM.toD (fun a => a.codeGenerated) (fun a => a.codeGenerated)
    (fun a => rfl)]
  rw [List.map_take, List.map_take, List.take_take]
  norm_num




/-- A property preserved by each step is preserved by a left fold. -/
theorem foldl_preserve {α σ : Type} (P : σ → Prop) (step : σ → α → σ)
    (hstep : ∀ s a, P s → P (step s a)) :
    ∀ (l : List α) (s : σ), P s → P (l.foldl step s)
  | [], _, hs => hs
  | a :: l, s, hs => foldl_preserve P step hstep l (step s a) (hstep s a hs)

/-- Assigning a fresh key appends it. -/
theorem jsSet_of_not_mem {β : Type} (k : String) (v : β) :
    ∀ l : List (String × β), k ∉ l.map Prod.fst → jsSet l k v = l ++ [(k, v)]
  | [], _ => rfl
  | (k1, w) :: rest, h => by
      rw [List.map_cons, List.mem_cons, not_or] at h
      have hk : k1 ≠ k := fun he => h.1 he.symm
      rw [jsSet, if_neg hk, jsSet_of_not_mem k v rest h.2]
      rfl

/-- Updating a fresh key appends it with the updated initial value. -/
theorem jsUpdate_of_not_mem {β : Type} (k : String) (f : β → β) (d : β) :
    ∀ l : List (String × β), k ∉ l.map Prod.fst → jsUpdate l k f d = l ++ [(k, f d)]
  | [], _ => rfl
  | (k1, w) :: rest, h => by
      rw [List.map_cons, List.mem_cons, not_or] at h
      have hk : k1 ≠ k := fun he => h.1 he.symm
      rw [jsUpdate, if_neg hk, jsUpdate_of_not_mem k f d rest h.2]
      rfl

/-- Updating an existing key leaves the key list unchanged. -/
theorem map_fst_jsUpdate_of_mem {β : Type} (k : String) (f : β → β) (d : β) :
    ∀ l : List (String × β), k ∈ l.map Prod.fst →
      (jsUpdate l k f d).map Prod.fst = l.map Prod.fst
  | [], h => absurd h (List.not_mem_nil k)
  | (k1, w) :: rest, h => by
      by_cases hk : k1 = k
      · rw [jsUpdate, if_pos hk]
        rfl
      · rw [jsUpdate, if_neg hk]
        have : k ∈ rest.map Prod.fst := by
          simp at h
          rcases h with h | h
          · exact absurd h.symm hk
          · simpa using h
        simp [map_fst_jsUpdate_of_mem k f d rest this]

/-- A map update preserves duplicate-freedom of the key list. -/
theorem map_fst_jsUpdate_nodup {β : Type} (k : String) (f : β → β) (d : β)
    (l : List (String × β)) (h : (l.map Prod.fst).Nodup) :
    ((jsUpdate l k f d).map Prod.fst).Nodup := by
  by_cases hk : k ∈ l.map Prod.fst
  · rw [map_fst_jsUpdate_of_mem k f d l hk]; exact h
  · rw [jsUpdate_of_not_mem k f d l hk]
    simp only [List.map_append]
    exact h.append (List.nodup_singleton k) (by
      intro a ha hb
      simp at hb
      subst hb
      exact hk ha)


/-- Zero-initialising a duplicate-free list of fresh keys appends them in
order. -/
theorem foldl_jsSet_zero :
    ∀ (ks : List String) (acc : List (String × ℤ)),
      (∀ k ∈ ks, k ∉ acc.map Prod.fst) → ks.Nodup →
      ks.foldl (fun a k => jsSet a k (0 : ℤ)) acc = acc ++ ks.map (fun k => (k, 0))
  | [], acc, _, _ => by simp
  | k :: ks, acc, habs, hnd => by
      simp only [List.foldl]
      rw [jsSet_of_not_mem k 0 acc (habs k (List.mem_cons_self _ _))]
      rw [foldl_jsSet_zero ks (acc ++ [(k, 0)])
        (by
          intro k2 hk2
          simp only [List.map_append, List.mem_append]
          rintro (h | h)
          · exact habs k2 (List.mem_cons_of_mem _ hk2) h
          · simp at h
            subst h
            exact (List.nodup_cons.mp hnd).1 hk2)
        (List.nodup_cons.mp hnd).2]
      simp

/-- The per-day count object holds exactly the keys
`[...topKeys, "Other"]`, in order: the initialisation creates them and every
routed entry updates one of them. -/
theorem stackedDayCounts_keys (topKeys : List String)
    (extract : Record → List (String × ℤ)) (dayRecs : List Record)
    (hnd : (topKeys ++ ["Other"]).Nodup) :
    (stackedDayCounts topKeys extract dayRecs).map Prod.fst = topKeys ++ ["Other"] := by
  have hndk : topKeys.Nodup := (List.nodup_append.mp hnd).1
  have ho : "Other" ∉ topKeys := by
    intro h
    exact ((List.nodup_append.mp hnd).2.2) h (List.mem_singleton_self _)
  have hinit : jsSet (topKeys.foldl (fun a k => jsSet a k (0 : ℤ)) []) "Other" 0 =
      (topKeys ++ ["Other"]).map (fun k => (k, (0 : ℤ))) := by
    rw [foldl_jsSet_zero topKeys [] (by intro k hk; simp) hndk]
    rw [jsSet_of_not_mem "Other" 0 _ (by simpa using ho)]
    simp
  rw [stackedDayCounts, hinit]
  refine foldl_preserve
    (fun counts : List (String × ℤ) => counts.map Prod.fst = topKeys ++ ["Other"])
    (fun counts r =>
      (extract r).foldl
        (fun counts kc =>
          if topKeys.contains kc.1 then jsUpdate counts kc.1 (fun c => c + kc.2) 0
          else jsUpdate counts "Other" (fun c => c + kc.2) 0)
        counts)
    ?_ dayRecs ((topKeys ++ ["Other"]).map (fun k => (k, (0 : ℤ))))
    (by
      simp only [List.map_map]
      rw [show (Prod.fst ∘ fun k : String => (k, (0 : ℤ))) = id from rfl, List.map_id])
  intro counts r hP
  dsimp only
  refine foldl_preserve
    (fun counts : List (String × ℤ) => counts.map Prod.fst = topKeys ++ ["Other"])
    (fun counts kc =>
      if topKeys.contains kc.1 then jsUpdate counts kc.1 (fun c => c + kc.2) 0
      else jsUpdate counts "Other" (fun c => c + kc.2) 0)
    ?_ (extract r) counts hP
  intro counts kc hP2
  dsimp only
  by_cases hk : topKeys.contains kc.1
  · rw [if_pos hk, map_fst_jsUpdate_of_mem _ _ _ _ (by
      rw [hP2]
      exact List.mem_append_left _ (by simpa using hk))]
    exact hP2
  · rw [if_neg hk, map_fst_jsUpdate_of_mem _ _ _ _ (by
      rw [hP2]
      exact List.mem_append_right _ (List.mem_singleton_self _))]
    exact hP2

/-- The model window-totals object has duplicate-free keys. -/
theorem modelWindowTotals_keys_nodup (records : List Record) :
    ((modelWindowTotals records).map Prod.fst).Nodup := by
  rw [modelWindowTotals]
  refine foldl_preserve (fun l : List (String × ℤ) => (l.map Prod.fst).Nodup)
    (fun acc r =>
      r.totals_by_model_feature.foldl
        (fun acc m =>
          jsUpdate acc m.model
            (fun c => c + (m.user_initiated_interaction_count + m.code_generation_activity_count))
            0)
        acc)
    ?_ records [] (by simp)
  intro acc r h
  dsimp only
  refine foldl_preserve (fun l : List (String × ℤ) => (l.map Prod.fst).Nodup)
    (fun acc m =>
      jsUpdate acc m.model
        (fun c => c + (m.user_initiated_interaction_count + m.code_generation_activity_count))
        0)
    ?_ r.totals_by_model_feature acc h
  intro acc m h2
  dsimp only
  exact map_fst_jsUpdate_nodup _ _ _ _ h2

/-- The language window-totals object has duplicate-free keys. -/
theorem langWindowTotals_keys_nodup (records : List Record) :
    ((langWindowTotals records).map Prod.fst).Nodup := by
  rw [langWindowTotals]
  refine foldl_preserve (fun l : List (String × ℤ) => (l.map Prod.fst).Nodup)
    (fun acc r =>
      r.totals_by_language_feature.foldl
        (fun acc l => jsUpdate acc l.language (fun c => c + l.code_generation_activity_count) 0)
        acc)
    ?_ records [] (by simp)
  intro acc r h
  dsimp only
  refine foldl_preserve (fun l : List (String × ℤ) => (l.map Prod.fst).Nodup)
    (fun acc l => jsUpdate acc l.language (fun c => c + l.code_generation_activity_count) 0)
    ?_ r.totals_by_language_feature acc h
  intro acc m h2
  dsimp only
  exact map_fst_jsUpdate_nodup _ _ _ _ h2


/-- Reading an object at each of its own (duplicate-free) keys enumerates
its values. -/
theorem map_lookupD {β γ : Type} (g : β → γ) (d : β) :
    ∀ l : List (String × β), ((l.map Prod.fst).Nodup) →
      (l.map Prod.fst).map (fun k => g (lookupD l k d)) = l.map (fun p => g p.2)
  | [], _ => rfl
  | (k1, v) :: rest, hnd => by
      simp only [List.map_cons]
      have h1 : lookupD ((k1, v) :: rest) k1 d = v := by rw [lookupD, if_pos rfl]
      rw [h1]
      have hk1 : k1 ∉ rest.map Prod.fst := (List.nodup_cons.mp hnd).1
      have hcong : (rest.map Prod.fst).map (fun k => g (lookupD ((k1, v) :: rest) k d)) =
          (rest.map Prod.fst).map (fun k => g (lookupD rest k d)) := by
        refine List.map_congr_left ?_
        intro k hk
        have hne : k1 ≠ k := fun he => hk1 (he ▸ hk)
        rw [lookupD, if_neg hne]
      rw [hcong, map_lookupD g d rest (List.nodup_cons.mp hnd).2]

/-- Sums distribute over a constant divisor. -/
theorem sum_map_div {α : Type} (l : List α) (f : α → ℚ) (c : ℚ) :
    (l.map (fun x => f x / c)).sum = (l.map f).sum / c := by
  induction l with
  | nil => simp
  | cons x xs ih => simp [ih, add_div]

/-- Sums distribute over a constant factor. -/
theorem sum_map_mul_const {α : Type} (l : List α) (f : α → ℚ) (c : ℚ) :
    (l.map (fun x => f x * c)).sum = (l.map f).sum * c := by
  induction l with
  | nil => simp
  | cons x xs ih => simp [ih, add_mul]

/-- Casting the integer sum of the values equals summing the casts. -/
theorem cast_sum_snd (l : List (String × ℤ)) :
    (l.map (fun p => ((p.2 : ℤ) : ℚ))).sum = (((l.map Prod.snd).sum : ℤ) : ℚ) := by
  induction l with
  | nil => simp
  | cons x xs ih => simp [ih]

/-- Rounding each term half-up moves a sum by at most half a unit per
term. -/
theorem sum_floor_half_bound :
    ∀ xs : List ℚ, |(xs.map (fun x => ((⌊x + 1 / 2⌋ : ℤ) : ℚ))).sum - xs.sum| ≤ xs.length / 2
  | [] => by simp
  | x :: xs => by
      simp only [List.map_cons, List.sum_cons, List.length_cons]
      have h1 : |((⌊x + 1 / 2⌋ : ℤ) : ℚ) - x| ≤ 1 / 2 := by
        have hle : ((⌊x + 1 / 2⌋ : ℤ) : ℚ) ≤ x + 1 / 2 := Int.floor_le _
        have hgt : x + 1 / 2 - 1 < ((⌊x + 1 / 2⌋ : ℤ) : ℚ) := Int.sub_one_lt_floor _
        rw [abs_le]
        constructor <;> linarith
      have h2 := sum_floor_half_bound xs
      have harr : ((⌊x + 1 / 2⌋ : ℤ) : ℚ) + (xs.map (fun x => ((⌊x + 1 / 2⌋ : ℤ) : ℚ))).sum -
          (x + xs.sum) =
          (((⌊x + 1 / 2⌋ : ℤ) : ℚ) - x) +
            ((xs.map (fun x => ((⌊x + 1 / 2⌋ : ℤ) : ℚ))).sum - xs.sum) := by ring
      rw [harr]
      calc |(((⌊x + 1 / 2⌋ : ℤ) : ℚ) - x) +
            ((xs.map (fun x => ((⌊x + 1 / 2⌋ : ℤ) : ℚ))).sum - xs.sum)| ≤
          |((⌊x + 1 / 2⌋ : ℤ) : ℚ) - x| +
            |(xs.map (fun x => ((⌊x + 1 / 2⌋ : ℤ) : ℚ))).sum - xs.sum| := abs_add _ _
        _ ≤ 1 / 2 + xs.length / 2 := add_le_add h1 h2
        _ = (xs.length + 1) / 2 := by ring
        _ = ((xs.length + 1 : ℕ) : ℚ) / 2 := by push_cast; ring


/-- Core bound for C5: with at most five top keys plus `"Other"`, all keys
distinct, and a positive day total, the rounded percentages of one day sum
to `100` within `0.03` (six terms, each within half of one hundredth). -/
theorem stackedDayPercents_sum_bound (topKeys : List String)
    (extract : Record → List (String × ℤ)) (dayRecs : List Record)
    (hnd : (topKeys ++ ["Other"]).Nodup) (hlen : topKeys.length ≤ 5)
    (hpos : 0 < stackedDayTotal topKeys extract dayRecs) :
    |(stackedDayPercents topKeys extract dayRecs).sum - 100| ≤ 3 / 100 := by
  have hkeys : (stackedDayCounts topKeys extract dayRecs).map Prod.fst = topKeys ++ ["Other"] :=
    stackedDayCounts_keys _ _ _ hnd
  have hperc : stackedDayPercents topKeys extract dayRecs =
      (topKeys ++ ["Other"]).map (fun k =>
        if 0 < stackedDayTotal topKeys extract dayRecs then
          ((jsRound (((lookupD (stackedDayCounts topKeys extract dayRecs) k 0 : ℤ) : ℚ) * 10000 /
            ((stackedDayTotal topKeys extract dayRecs : ℤ) : ℚ)) : ℤ) : ℚ) / 100
        else 0) := rfl
  rw [hperc]
  have hif : ((topKeys ++ ["Other"]).map (fun k =>
      if 0 < stackedDayTotal topKeys extract dayRecs then
        ((jsRound (((lookupD (stackedDayCounts topKeys extract dayRecs) k 0 : ℤ) : ℚ) * 10000 /
          ((stackedDayTotal topKeys extract dayRecs : ℤ) : ℚ)) : ℤ) : ℚ) / 100
      else 0)) =
      (topKeys ++ ["Other"]).map (fun k =>
        ((jsRound (((lookupD (stackedDayCounts topKeys extract dayRecs) k 0 : ℤ) : ℚ) * 10000 /
          ((stackedDayTotal topKeys extract dayRecs : ℤ) : ℚ)) : ℤ) : ℚ) / 100) := by
    refine List.map_congr_left ?_
    intro k _
    rw [if_pos hpos]
  rw [hif, ← hkeys]
  rw [map_lookupD
    (fun v => ((jsRound (((v : ℤ) : ℚ) * 10000 /
      ((stackedDayTotal topKeys extract dayRecs : ℤ) : ℚ)) : ℤ) : ℚ) / 100) 0
    (stackedDayCounts topKeys extract dayRecs) (by rw [hkeys]; exact hnd)]
  rw [sum_map_div]
  have htq : ((stackedDayTotal topKeys extract dayRecs : ℤ) : ℚ) ≠ 0 := by
    have : (0 : ℤ) < stackedDayTotal topKeys extract dayRecs := hpos
    exact_mod_cast ne_of_gt this
  have hS : ((stackedDayCounts topKeys extract dayRecs).map (fun p =>
      ((jsRound (((p.2 : ℤ) : ℚ) * 10000 /
        ((stackedDayTotal topKeys extract dayRecs : ℤ) : ℚ)) : ℤ) : ℚ))).sum =
      (((stackedDayCounts topKeys extract dayRecs).map (fun p =>
        ((p.2 : ℤ) : ℚ) * 10000 / ((stackedDayTotal topKeys extract dayRecs : ℤ) : ℚ))).map
          (fun x => ((⌊x + 1 / 2⌋ : ℤ) : ℚ))).sum := by
    rw [List.map_map]
    rfl
  have hxs : ((stackedDayCounts topKeys extract dayRecs).map (fun p =>
      ((p.2 : ℤ) : ℚ) * 10000 / ((stackedDayTotal topKeys extract dayRecs : ℤ) : ℚ))).sum =
      10000 := by
    rw [sum_map_div, sum_map_mul_const]
    rw [cast_sum_snd]
    rw [show ((stackedDayCounts topKeys extract dayRecs).map Prod.snd).sum =
      stackedDayTotal topKeys extract dayRecs from rfl]
    field_simp
  have hbound := sum_floor_half_bound ((stackedDayCounts topKeys extract dayRecs).map (fun p =>
    ((p.2 : ℤ) : ℚ) * 10000 / ((stackedDayTotal topKeys extract dayRecs : ℤ) : ℚ)))
  rw [hxs] at hbound
  have hlen6 : ((stackedDayCounts topKeys extract dayRecs).length : ℚ) ≤ 6 := by
    have h1 : (stackedDayCounts topKeys extract dayRecs).length =
        (topKeys ++ ["Other"]).length := by
      rw [← hkeys, List.length_map]
    have h2 : (stackedDayCounts topKeys extract dayRecs).length ≤ 6 := by
      rw [h1, List.length_append]
      simp only [List.length_singleton]
      omega
    exact_mod_cast h2
  have h3 : |((stackedDayCounts topKeys extract dayRecs).map (fun p =>
      ((jsRound (((p.2 : ℤ) : ℚ) * 10000 /
        ((stackedDayTotal topKeys extract dayRecs : ℤ) : ℚ)) : ℤ) : ℚ))).sum - 10000| ≤ 3 := by
    rw [hS]
    refine le_trans hbound ?_
    rw [List.length_map]
    linarith
  have harr : ((stackedDayCounts topKeys extract dayRecs).map (fun p =>
      ((jsRound (((p.2 : ℤ) : ℚ) * 10000 /
        ((stackedDayTotal topKeys extract dayRecs : ℤ) : ℚ)) : ℤ) : ℚ))).sum / 100 - 100 =
      (((stackedDayCounts topKeys extract dayRecs).map (fun p =>
        ((jsRound (((p.2 : ℤ) : ℚ) * 10000 /
          ((stackedDayTotal topKeys extract dayRecs : ℤ) : ℚ)) : ℤ) : ℚ))).sum - 10000) / 100 := by
    ring
  rw [harr, abs_div, abs_of_pos (by norm_num : (0 : ℚ) < 100)]
  linarith


/-- The top-five keys of a totals object with duplicate-free keys, none of
which is `"Other"`, are distinct from each other and from `"Other"`, and
number at most five. -/
theorem topFive_nodup_and_short (totals : List (String × ℤ))
    (hnd : (totals.map Prod.fst).Nodup) (ho : "Other" ∉ totals.map Prod.fst) :
    (topFiveKeys totals ++ ["Other"]).Nodup ∧ (topFiveKeys totals).length ≤ 5 := by
  have hperm : List.Perm (sortByDesc (fun p => p.2) totals) totals :=
    List.perm_insertionSort _ totals
  have hnds : ((sortByDesc (fun p => p.2) totals).map Prod.fst).Nodup :=
    ((hperm.map Prod.fst).nodup_iff).mpr hnd
  have hsub : List.Sublist (((sortByDesc (fun p => p.2) totals).take 5).map Prod.fst)
      ((sortByDesc (fun p => p.2) totals).map Prod.fst) :=
    (List.take_sublist 5 _).map Prod.fst
  have hnd5 : (topFiveKeys totals).Nodup := hnds.sublist hsub
  have ho5 : "Other" ∉ topFiveKeys totals := by
    intro h
    exact ho ((hperm.map Prod.fst).mem_iff.mp (hsub.subset h))
  refine ⟨?_, ?_⟩
  · refine List.Nodup.append hnd5 (List.nodup_singleton _) ?_
    intro a ha hb
    rw [List.mem_singleton] at hb
    subst hb
    exact ho5 ha
  · rw [topFiveKeys, List.length_map]
    exact List.length_take_le 5 _

/-- C5 amended: in both percentage-normalized per-day series (model usage
and language usage), for every day whose total is positive, the day's
percentages for the fixed top-5 categories plus `"Other"` sum to `100.00`
within `0.03` — not the claimed `0.01` — provided no category key in the
window totals is the literal string `"Other"` (which would collide with the
remainder bucket). -/
theorem normalized_series_sum_within_003 (records : List Record) (day : String)
    (hm : "Other" ∉ (modelWindowTotals records).map Prod.fst)
    (hl : "Other" ∉ (langWindowTotals records).map Prod.fst) :
    (0 < stackedDayTotal (topFiveKeys (modelWindowTotals records)) extractModelCount
        (lookupD (getRecordsByDay records) day []) →
      |(stackedDayPercents (topFiveKeys (modelWindowTotals records)) extractModelCount
          (lookupD (getRecordsByDay records) day [])).sum - 100| ≤ 3 / 100) ∧
    (0 < stackedDayTotal (topFiveKeys (langWindowTotals records)) extractLangCount
        (lookupD (getRecordsByDay records) day []) →
      |(stackedDayPercents (topFiveKeys (langWindowTotals records)) extractLangCount
          (lookupD (getRecordsByDay records) day [])).sum - 100| ≤ 3 / 100) := by
  constructor
  · intro hpos
    obtain ⟨h1, h2⟩ := topFive_nodup_and_short (modelWindowTotals records)
      (modelWindowTotals_keys_nodup records) hm
    exact stackedDayPercents_sum_bound _ _ _ h1 h2 hpos
  · intro hpos
    obtain ⟨h1, h2⟩ := topFive_nodup_and_short (langWindowTotals records)
      (langWindowTotals_keys_nodup records) hl
    exact stackedDayPercents_sum_bound _ _ _ h1 h2 hpos

/-- Witness for C5 amended at the six-model store. -/
theorem normalized_series_sum_within_003_witness :
    ("Other" ∉ (modelWindowTotals [modelSixRecord]).map Prod.fst) ∧
    ("Other" ∉ (langWindowTotals [modelSixRecord]).map Prod.fst) ∧
    (0 < stackedDayTotal (topFiveKeys (modelWindowTotals [modelSixRecord])) extractModelCount
        (lookupD (getRecordsByDay [modelSixRecord]) "2026-01-01" [])) ∧
    |(stackedDayPercents (topFiveKeys (modelWindowTotals [modelSixRecord])) extractModelCount
        (lookupD (getRecordsByDay [modelSixRecord]) "2026-01-01" [])).sum - 100| ≤ 3 / 100 :=
  ⟨by decide, by decide, by decide,
   (normalized_series_sum_within_003 [modelSixRecord] "2026-01-01" (by decide) (by decide)).1
     (by decide)⟩


end CM
